import Mathlib

/-!
Shallow embedding of `searchAfterAndBulkCreate` from
`x-pack/plugins/security_solution/server/lib/detection_engine/signals/search_after_bulk_create.ts`.

The controller drives a list of time-window tuples (popped from the end of
the list), and for each window runs a page loop: search one page with a
`search_after` cursor, filter the hits against exclusion lists, bulk-write
the filtered batch (truncated to the window's remaining `maxSignals`
budget), and advance the cursor from the last hit of the unfiltered page.

The three collaborating services (`singleSearchAfter`,
`filterEventsAgainstList`, `singleBulkCreate`) are not part of the examined
sources; per the specification they are opaque service boundaries. They are
modelled as oracles indexed by a per-service call counter (the controller is
sequential and deterministic, so response-by-call-index captures every
possible interaction). A thrown JS exception is modelled as
`Except.error s` where `s` is the stringified condition (the source only
ever consumes the exception via string interpolation).

JS numbers that take part in budget arithmetic (`maxSignals`, `pageSize`)
are modelled as `ℚ`; counters that the source only ever increments by item
counts are modelled as `ℕ`; timestamps as `ℤ`.
-/

/-- A raw search hit: `_source['@timestamp']` (possibly absent) and the
`sort` token array (possibly absent). -/
structure Hit where
  timestamp : Option Int
  sort : Option (List String)
deriving DecidableEq

/-- Shape of `searchResult.hits.total`: either a literal number or a
wrapper object holding the number in its value field. -/
inductive TotalHits where
  | lit (n : Int)
  | wrapped (n : Int)
deriving DecidableEq

/-- Normalization of the total-hit count performed at lines 144-147 of the
source: `typeof total === 'number' ? total : total.value`. -/
def TotalHits.value : TotalHits → Int
  | .lit n => n
  | .wrapped n => n

/-- Shape of `searchResult.hits`. -/
structure HitsContainer where
  total : TotalHits
  hits : List Hit
deriving DecidableEq

/-- The shape of `SignalSearchResponse` that the controller reads. -/
structure SignalSearchResponse where
  hits : HitsContainer
deriving DecidableEq

/-- One element of `totalToFromTuples` as produced by the Time-Window
Planner (`getSignalTimeTuples`, an external collaborator): a time window
with a per-window signal cap.  `toTime`/`fromTime` model the source's
`to`/`from` moment fields (`from` is a Lean keyword), kept optional because
the controller null-checks them. -/
structure TimeTuple where
  toTime : Option Int
  fromTime : Option Int
  maxSignals : ℚ
deriving DecidableEq

/-- The request the controller hands to `singleSearchAfter`
(the fields the controller itself computes). -/
structure SearchReq where
  searchAfterSortId : Option String
  fromTime : Int
  toTime : Int
  pageSize : ℚ
deriving DecidableEq

/-- Instrumentation record of one search call: the request, plus the
per-window created count and the window's `maxSignals` at the moment of the
call (ghost fields used only to state properties; the oracle sees only
`req`). -/
structure SearchCall where
  req : SearchReq
  countAtCall : Nat
  maxSignalsAtCall : ℚ
deriving DecidableEq

/-- Instrumentation record of one bulk-create call: per-window created
count before the call, the filtered batch length before truncation, the
offered (possibly truncated) batch length, and the window's `maxSignals`. -/
structure BulkCall where
  countBefore : Nat
  filteredLen : Nat
  offered : Nat
  maxSignalsAtCall : ℚ
deriving DecidableEq

/-- Instrumentation record of one finished (or aborted-in-progress) window:
its `maxSignals` and the per-window created count it ended with. -/
structure WindowRecord where
  maxSignals : ℚ
  created : Nat
deriving DecidableEq

/-- Response of `singleBulkCreate`. -/
structure BulkResponse where
  bulkCreateDuration : Option String
  createdItemsCount : Nat
  success : Bool
  errors : List String
deriving DecidableEq

/-- The source's `SearchAfterAndBulkCreateReturnType`. `lastLookBackDate`
is `Date | null | undefined`; a JS `Date` built from a possibly-absent
timestamp is modelled as `Option Int` (`none` = invalid date). -/
structure SearchAfterAndBulkCreateReturnType where
  success : Bool
  searchAfterTimes : List String
  bulkCreateTimes : List String
  lastLookBackDate : Option (Option Int)
  createdSignalsCount : Nat
  errors : List String
deriving DecidableEq

/-- The opaque collaborating services, modelled as call-counter-indexed
oracles. `Except.error s` models a thrown condition with stringification
`s`. -/
structure Env where
  singleSearchAfter : Nat → SearchReq → Except String (SignalSearchResponse × String)
  filterEventsAgainstList : Nat → SignalSearchResponse → Except String SignalSearchResponse
  singleBulkCreate : Nat → List Hit → Except String BulkResponse

/-- Configuration the controller receives besides the tuple list (only the
fields that affect control flow). -/
structure Config where
  pageSize : ℚ

/-- The controller's mutable state: the accumulating return value, the
closure variables `sortId` and `signalsCreatedCount`, per-service call
counters, and ghost traces used only to state properties. -/
structure LoopState where
  toReturn : SearchAfterAndBulkCreateReturnType
  sortId : Option String
  signalsCreatedCount : Nat
  searchIdx : Nat
  filterIdx : Nat
  bulkIdx : Nat
  searchCalls : List SearchCall
  bulkCalls : List BulkCall
  windowResults : List WindowRecord
deriving DecidableEq

/-- Auxiliary accumulator form of the JS set rebuild: deduplicate keeping
the first occurrence of each string, preserving insertion order. -/
def jsSetAux (seen : List String) : List String → List String
  | [] => []
  | a :: l => if a ∈ seen then jsSetAux seen l else a :: jsSetAux (a :: seen) l

/-- The JS spread-of-Set rebuild of a string array: first occurrences, in
order. -/
def jsSetOfList (l : List String) : List String := jsSetAux [] l

/-- Shared shape of the source's fatal-error updates (lines 113-117 and
250-254): set `success` to false and rebuild `errors` as
`[...new Set([...errors, e])]`. -/
def recordThrow (st : LoopState) (e : String) : LoopState :=
  { st with toReturn := { st.toReturn with
      success := false
      errors := jsSetOfList (st.toReturn.errors ++ [e]) } }

/-- Line 137 of the source:
`tuple.maxSignals < pageSize ? Math.ceil(tuple.maxSignals) : pageSize`. -/
def mkPageSize (cfg : Config) (maxSignals : ℚ) : ℚ :=
  if maxSignals < cfg.pageSize then (⌈maxSignals⌉ : ℚ) else cfg.pageSize

/-- The search request the controller builds at lines 129-139. -/
def mkSearchReq (cfg : Config) (maxSignals : ℚ) (fromV toV : Int) (st : LoopState) : SearchReq :=
  { searchAfterSortId := st.sortId
    fromTime := fromV
    toTime := toV
    pageSize := mkPageSize cfg maxSignals }

/-- Bump the search call counter and record the issued request (ghost). -/
def recordSearchCall (cfg : Config) (maxSignals : ℚ) (fromV toV : Int) (st : LoopState) :
    LoopState :=
  { st with
    searchIdx := st.searchIdx + 1
    searchCalls := st.searchCalls ++
      [⟨mkSearchReq cfg maxSignals fromV toV st, st.signalsCreatedCount, maxSignals⟩] }

/-- Line 141: `toReturn.searchAfterTimes.push(searchDuration)`. -/
def recordDuration (dur : String) (st : LoopState) : LoopState :=
  { st with toReturn := { st.toReturn with
      searchAfterTimes := st.toReturn.searchAfterTimes ++ [dur] } }

/-- Lines 171-176: record `lastLookBackDate` from the last hit's
`@timestamp` when the page is non-empty. -/
def setLastLookBack (r : SignalSearchResponse) (st : LoopState) : LoopState :=
  { st with toReturn := { st.toReturn with
      lastLookBackDate :=
        if 0 < r.hits.hits.length then
          some ((r.hits.hits.getLast?).bind Hit.timestamp)
        else none } }

/-- Lines 195-200: the batch offered to the bulk writer. If the filtered
page would push the per-window count over `maxSignals`
(`signalsCreatedCount + filteredEvents.hits.hits.length > tuple.maxSignals`,
written with the integer sum on the cast side), slice it to the remaining
budget `maxSignals - count`: `List.take (⌊maxSignals⌋ - count).toNat` models
`Array.prototype.slice(0, maxSignals - count)` — the slice bound is
truncated toward zero, and `⌊maxSignals - count⌋ = ⌊maxSignals⌋ - count`
because `count` is an integer. -/
def truncBatch (maxSignals : ℚ) (count : Nat) (fe : SignalSearchResponse) : List Hit :=
  if maxSignals < ((count + fe.hits.hits.length : Nat) : ℚ) then
    fe.hits.hits.take (⌊maxSignals⌋ - (count : Int)).toNat
  else fe.hits.hits

/-- Bump the bulk call counter and record the call (ghost). -/
def recordBulkCall (flen offered : Nat) (maxSignals : ℚ) (st : LoopState) : LoopState :=
  { st with
    bulkIdx := st.bulkIdx + 1
    bulkCalls := st.bulkCalls ++ [⟨st.signalsCreatedCount, flen, offered, maxSignals⟩] }

/-- JS truthiness of `if (bulkDuration)`: push only a present, non-empty
duration string. -/
def pushIfTruthy (d : Option String) : List String :=
  match d with
  | some s => if s = "" then [] else [s]
  | none => []

/-- Lines 225-237: fold one bulk response into the state: add
`createdItemsCount` to both counters, push the duration if truthy, AND the
success flag, and set-union the errors. -/
def applyBulkResponse (resp : BulkResponse) (st : LoopState) : LoopState :=
  { st with
    signalsCreatedCount := st.signalsCreatedCount + resp.createdItemsCount
    toReturn := { st.toReturn with
      createdSignalsCount := st.toReturn.createdSignalsCount + resp.createdItemsCount
      bulkCreateTimes := st.toReturn.bulkCreateTimes ++ pushIfTruthy resp.bulkCreateDuration
      success := st.toReturn.success && resp.success
      errors := jsSetOfList (st.toReturn.errors ++ resp.errors) } }

/-- Outcome of one iteration of the inner page loop body. -/
inductive StepResult where
  | next (st : LoopState)
  | breakLoop (st : LoopState)
  | ret (st : LoopState)
deriving DecidableEq

/-- Lines 243-249: advance the cursor to the sort token of the last hit of
the unfiltered page; if the token is absent or empty, break out of the page
loop. The `none` case of `getLast?` is unreachable: the zero-hits check has
already fired on an empty page. -/
def advanceSort (r : SignalSearchResponse) (st : LoopState) : StepResult :=
  match r.hits.hits.getLast? with
  | none => .breakLoop st
  | some lastHit =>
    match lastHit.sort with
    | some (a :: _) => .next { st with sortId := some a }
    | some [] => .breakLoop st
    | none => .breakLoop st

/-- Lines 189-238: skip the write when the filtered page is empty,
otherwise truncate to the remaining budget and bulk-create; a thrown write
is fatal. Afterwards advance the cursor from the unfiltered page `r`. -/
def bulkPhase (env : Env) (maxSignals : ℚ) (r fe : SignalSearchResponse) (st : LoopState) :
    StepResult :=
  if fe.hits.hits.length ≠ 0 then
    match env.singleBulkCreate st.bulkIdx (truncBatch maxSignals st.signalsCreatedCount fe) with
    | .error e =>
        .ret (recordThrow
          (recordBulkCall fe.hits.hits.length
            (truncBatch maxSignals st.signalsCreatedCount fe).length maxSignals st) e)
    | .ok resp =>
        advanceSort r
          (applyBulkResponse resp
            (recordBulkCall fe.hits.hits.length
              (truncBatch maxSignals st.signalsCreatedCount fe).length maxSignals st))
  else advanceSort r st

/-- Lines 181-187: filter the unfiltered page against the exclusion lists;
a thrown filter call is fatal. -/
def filterPhase (env : Env) (maxSignals : ℚ) (r : SignalSearchResponse) (st : LoopState) :
    StepResult :=
  match env.filterEventsAgainstList st.filterIdx r with
  | .error e => .ret (recordThrow { st with filterIdx := st.filterIdx + 1 } e)
  | .ok fe => bulkPhase env maxSignals r fe { st with filterIdx := st.filterIdx + 1 }

/-- Lines 141-170: push the search duration, normalize the total-hit count,
and stop the window when the total is zero or the page is empty; otherwise
record the look-back date and continue with filtering. -/
def afterSearch (env : Env) (maxSignals : ℚ) (r : SignalSearchResponse) (dur : String)
    (st : LoopState) : StepResult :=
  if r.hits.total.value = 0 ∨ r.hits.hits.length = 0 then
    .breakLoop (recordDuration dur st)
  else filterPhase env maxSignals r (setLastLookBack r (recordDuration dur st))

/-- One full iteration of the inner `while` body (lines 121-255): the whole
body sits in a `try`/`catch` whose `catch` sets `success:false`, set-unions
the stringified condition into `errors`, and returns — modelled by the
`.ret` outcome. -/
def pageStep (env : Env) (cfg : Config) (maxSignals : ℚ) (fromV toV : Int)
    (st : LoopState) : StepResult :=
  match env.singleSearchAfter st.searchIdx (mkSearchReq cfg maxSignals fromV toV st) with
  | .error e => .ret (recordThrow (recordSearchCall cfg maxSignals fromV toV st) e)
  | .ok (r, dur) => afterSearch env maxSignals r dur (recordSearchCall cfg maxSignals fromV toV st)

/-- Outcome of the inner page loop: the window finished normally
(`window`), or the run must abort and return (`abort`). -/
inductive PageLoopResult where
  | window (st : LoopState)
  | abort (st : LoopState)
deriving DecidableEq

/-- The inner `while (signalsCreatedCount < tuple.maxSignals)` loop
(line 120). `fuel` bounds the number of iterations (the source's loop can
in principle spin forever against a pathological backend); `none` means the
bound was hit. -/
def pageLoop (env : Env) (cfg : Config) (maxSignals : ℚ) (fromV toV : Int) :
    Nat → LoopState → Option PageLoopResult
  | 0, _ => none
  | fuel + 1, st =>
    if (st.signalsCreatedCount : ℚ) < maxSignals then
      match pageStep env cfg maxSignals fromV toV st with
      | .next st' => pageLoop env cfg maxSignals fromV toV fuel st'
      | .breakLoop st' => some (.window st')
      | .ret st' => some (.abort st')
    else some (.window st)

/-- Close out a window in the ghost trace. -/
def recordWindow (maxSignals : ℚ) (st : LoopState) : LoopState :=
  { st with windowResults := st.windowResults ++ [⟨maxSignals, st.signalsCreatedCount⟩] }

/-- The outer `while (totalToFromTuples.length > 0)` loop (lines 111-257),
presented head-first: the source pops tuples from the END of the planner's
list, so the caller passes the reversed list (see
`searchAfterAndBulkCreate`). A missing tuple or missing bound fails the
whole run (lines 113-118); `signalsCreatedCount` is reset to 0 per window
(line 119) while `sortId` is NOT reset. -/
def windowLoop (env : Env) (cfg : Config) (fuel : Nat) :
    List (Option TimeTuple) → LoopState → Option LoopState
  | [], st => some st
  | none :: _, st => some (recordThrow st "malformed date tuple")
  | some ⟨none, _, _⟩ :: _, st => some (recordThrow st "malformed date tuple")
  | some ⟨some _, none, _⟩ :: _, st => some (recordThrow st "malformed date tuple")
  | some ⟨some toV, some fromV, ms⟩ :: rest, st =>
    match pageLoop env cfg ms fromV toV fuel { st with signalsCreatedCount := 0 } with
    | none => none
    | some (.window st') => windowLoop env cfg fuel rest (recordWindow ms st')
    | some (.abort st') => some (recordWindow ms st')

/-- The initial `toReturn` value and closure state (lines 84-98). -/
def initialState : LoopState :=
  { toReturn := { success := true, searchAfterTimes := [], bulkCreateTimes := [],
                  lastLookBackDate := none, createdSignalsCount := 0, errors := [] }
    sortId := none
    signalsCreatedCount := 0
    searchIdx := 0
    filterIdx := 0
    bulkIdx := 0
    searchCalls := []
    bulkCalls := []
    windowResults := [] }

/-- The controller `searchAfterAndBulkCreate`: run the window loop over the planner's
tuples. Popping from the end of `totalToFromTuples` is modelled by
processing its reversal head-first. The result is the final controller
state (whose `toReturn` is the returned `SearchAfterAndBulkCreateReturnType`),
or `none` when the page-loop fuel ran out. -/
def searchAfterAndBulkCreate (env : Env) (cfg : Config) (fuel : Nat)
    (totalToFromTuples : List (Option TimeTuple)) : Option LoopState :=
  windowLoop env cfg fuel totalToFromTuples.reverse initialState

/-- The state carried by any `StepResult`. -/
def resultState : StepResult → LoopState
  | .next st => st
  | .breakLoop st => st
  | .ret st => st

/-- The state carried by any `PageLoopResult`. -/
def pageOutState : PageLoopResult → LoopState
  | .window st => st
  | .abort st => st

/-- Sum of the windows' `maxSignals` over a planner output (a missing tuple
contributes 0). -/
def sumMaxSignals (tuples : List (Option TimeTuple)) : ℚ :=
  (tuples.map (fun t? => match t? with | some t => t.maxSignals | none => 0)).sum

/-- The property every recorded bulk call enjoys: it was issued strictly
under budget, against an integral window cap, and its offered batch length
is the filtered length truncated to the remaining budget. -/
def BulkCallBudgeted (c : BulkCall) : Prop :=
  (∃ n : Nat, c.maxSignalsAtCall = n) ∧
  (c.countBefore : ℚ) < c.maxSignalsAtCall ∧
  c.offered =
    if c.maxSignalsAtCall < ((c.countBefore + c.filteredLen : Nat) : ℚ) then
      min (⌊c.maxSignalsAtCall⌋ - (c.countBefore : Int)).toNat c.filteredLen
    else c.filteredLen

/-- A truthful bulk writer never reports more created items than the batch
it was offered. -/
def TruthfulWriter (env : Env) : Prop :=
  ∀ i batch resp, env.singleBulkCreate i batch = Except.ok resp →
    resp.createdItemsCount ≤ batch.length

/-- Relation between the state at the top of a page-loop iteration and any
later state of the same window: the run-level created counter moves in
lock-step with the per-window counter, search/bulk ghost traces only grow
(with all new entries belonging to this window and satisfying the recorded
formulas), error deduplication is preserved, and the window trace is
untouched. -/
def PageLoopInv (cfg : Config) (maxSignals : ℚ) (st st' : LoopState) : Prop :=
  (st'.toReturn.createdSignalsCount + st.signalsCreatedCount
     = st.toReturn.createdSignalsCount + st'.signalsCreatedCount) ∧
  (∃ l, st'.searchCalls = st.searchCalls ++ l ∧
     ∀ c ∈ l, c.maxSignalsAtCall = maxSignals ∧ c.req.pageSize = mkPageSize cfg maxSignals) ∧
  (∃ l, st'.bulkCalls = st.bulkCalls ++ l ∧
     ∀ c ∈ l, c.maxSignalsAtCall = maxSignals ∧ (c.countBefore : ℚ) < maxSignals ∧
       c.offered =
         if maxSignals < ((c.countBefore + c.filteredLen : Nat) : ℚ) then
           min (⌊maxSignals⌋ - (c.countBefore : Int)).toNat c.filteredLen
         else c.filteredLen) ∧
  (st.toReturn.errors.Nodup → st'.toReturn.errors.Nodup) ∧
  st'.windowResults = st.windowResults

/-! ## Concrete environments and runs used to instantiate the theorems -/

/-- A hit with timestamp 100 and single-element sort token `["a"]`. -/
def hitA : Hit := { timestamp := some 100, sort := some ["a"] }

/-- A hit carrying no sort token at all. -/
def hitNoSort : Hit := { timestamp := some 7, sort := none }

/-- A hit with a multi-field sort token. -/
def hitMulti : Hit := { timestamp := some 5, sort := some ["x", "y", "z"] }

/-- A search page with a literal total and the given hits. -/
def pageOf (total : Int) (hits : List Hit) : SignalSearchResponse :=
  { hits := { total := TotalHits.lit total, hits := hits } }

/-- Identity exclusion filter: keeps every hit, never raises. -/
def idFilter : Nat → SignalSearchResponse → Except String SignalSearchResponse :=
  fun _ r => Except.ok r

/-- Truthful bulk writer reporting exactly the offered batch length. -/
def honestBulk : Nat → List Hit → Except String BulkResponse :=
  fun _ batch => Except.ok
    { bulkCreateDuration := some "5ms"
      createdItemsCount := batch.length
      success := true
      errors := [] }

/-- Configuration with configured page size 10. -/
def cfgTen : Config := { pageSize := 10 }

/-- One page with one hit, then empty pages. -/
def envC1 : Env :=
  { singleSearchAfter := fun i _ =>
      if i = 0 then Except.ok (pageOf 1 [hitA], "10ms") else Except.ok (pageOf 0 [], "11ms")
    filterEventsAgainstList := idFilter
    singleBulkCreate := honestBulk }

def tuplesC1 : List (Option TimeTuple) := [some ⟨some 10, some 0, 1⟩]

def stC1 : LoopState := (searchAfterAndBulkCreate envC1 cfgTen 3 tuplesC1).getD initialState

/-- Same service behaviour, used with two windows: the first window leaves
cursor "a" behind, the second window's first fetch then carries it. -/
def envC2 : Env :=
  { singleSearchAfter := fun i _ =>
      if i = 0 then Except.ok (pageOf 1 [hitA], "d0") else Except.ok (pageOf 0 [], "d1")
    filterEventsAgainstList := idFilter
    singleBulkCreate := honestBulk }

/-- Two windows; the controller pops from the end, so the window with
`fromTime = 0` runs first and the window with `fromTime = 100` runs second. -/
def tuplesC2 : List (Option TimeTuple) :=
  [some ⟨some 200, some 100, 1⟩, some ⟨some 10, some 0, 1⟩]

/-- The cursor and window lower bound of every search request of a run, in
call order. -/
def sortIdTrace (o : Option LoopState) : List (Option String × Int) :=
  (o.getD initialState).searchCalls.map (fun c => (c.req.searchAfterSortId, c.req.fromTime))

/-- Final state of a single-window run used to instantiate the amended C2
statement. -/
def stC2w : LoopState :=
  (windowLoop envC2 cfgTen 3 [some ⟨some 10, some 0, 1⟩] initialState).getD initialState

/-- First page holds three hits that all pass the filter and are all
written; later pages are empty. -/
def threeHits : List Hit :=
  [{ timestamp := some 1, sort := some ["s1"] },
   { timestamp := some 2, sort := some ["s2"] },
   { timestamp := some 3, sort := some ["s3"] }]

def envC3 : Env :=
  { singleSearchAfter := fun i _ =>
      if i = 0 then Except.ok (pageOf 3 threeHits, "d0") else Except.ok (pageOf 0 [], "d1")
    filterEventsAgainstList := idFilter
    singleBulkCreate := honestBulk }

def tuplesC3 : List (Option TimeTuple) := [some ⟨some 10, some 0, 5⟩]

def stC3 : LoopState := (searchAfterAndBulkCreate envC3 cfgTen 4 tuplesC3).getD initialState

/-- The per-window created count and requested page size of every search
request of a run, in call order. -/
def pageSizeTrace (o : Option LoopState) : List (Nat × ℚ) :=
  (o.getD initialState).searchCalls.map (fun c => (c.countAtCall, c.req.pageSize))

/-- What the specification prescribes for the page size, in its own words:
the minimum of the remaining window budget (`maxSignals` minus signals
already created in the window) and the configured page size, rounded up
when fractional. Stated only to compare against the implementation. -/
def specPageSize (maxSignals : ℚ) (created : Nat) (configured : ℚ) : ℚ :=
  (⌈min (maxSignals - (created : ℚ)) configured⌉ : ℚ)

/-- A contradictory backend: reports total 0 together with a non-empty hits
array. -/
def envC4 : Env :=
  { singleSearchAfter := fun _ _ => Except.ok (pageOf 0 [hitA], "d0")
    filterEventsAgainstList := idFilter
    singleBulkCreate := honestBulk }

/-- A search service that always raises. -/
def envErr : Env :=
  { singleSearchAfter := fun _ _ => Except.error "boom"
    filterEventsAgainstList := idFilter
    singleBulkCreate := honestBulk }

/-- The state in which the raising search leaves the page step. -/
def stC5r : LoopState := resultState (pageStep envErr cfgTen 1 0 10 initialState)

/-- A search service that succeeds on the first page and raises on the
second (the spec scenario for a fatal search failure). -/
def envC5 : Env :=
  { singleSearchAfter := fun i _ =>
      if i = 0 then Except.ok (pageOf 1 [hitA], "d0") else Except.error "search exploded"
    filterEventsAgainstList := idFilter
    singleBulkCreate := honestBulk }

/-- Outcome of the page loop of the C5 scenario (an abort on page two). -/
def outC5 : Option PageLoopResult :=
  pageLoop envC5 cfgTen 5 0 10 3 { initialState with signalsCreatedCount := 0 }

def stC5ab : LoopState :=
  match outC5 with
  | some o => pageOutState o
  | none => initialState

/-- A bulk writer that reports a partial failure without raising. -/
def envC6 : Env :=
  { singleSearchAfter := fun _ _ => Except.ok (pageOf 1 [hitA], "d0")
    filterEventsAgainstList := idFilter
    singleBulkCreate := fun _ batch => Except.ok
      { bulkCreateDuration := some "b0"
        createdItemsCount := batch.length
        success := false
        errors := ["dup failure"] } }

/-- A page whose only (last) hit carries no sort token, with a filter that
drops every hit, so the write is skipped and the missing token ends the
window. -/
def envC7 : Env :=
  { singleSearchAfter := fun _ _ => Except.ok (pageOf 1 [hitNoSort], "d0")
    filterEventsAgainstList := fun _ _ => Except.ok (pageOf 1 [])
    singleBulkCreate := honestBulk }

/-- A writer that fails partially with the same error on every page; the
first two pages return a hit, then the search drains. -/
def envC9 : Env :=
  { singleSearchAfter := fun i _ =>
      if i < 2 then Except.ok (pageOf 3 [hitA], "d") else Except.ok (pageOf 0 [], "d2")
    filterEventsAgainstList := idFilter
    singleBulkCreate := fun _ batch => Except.ok
      { bulkCreateDuration := some "b"
        createdItemsCount := batch.length
        success := false
        errors := ["dup failure"] } }

def tuplesC9 : List (Option TimeTuple) := [some ⟨some 10, some 0, 5⟩]

def stC9 : LoopState := (searchAfterAndBulkCreate envC9 cfgTen 5 tuplesC9).getD initialState

/-- A page whose last hit has the multi-field sort token of `hitMulti`. -/
def envC10 : Env :=
  { singleSearchAfter := fun _ _ => Except.ok (pageOf 1 [hitMulti], "d0")
    filterEventsAgainstList := idFilter
    singleBulkCreate := honestBulk }

/-- Final state of the C5 scenario's full run. -/
def stC5w : LoopState :=
  (windowLoop envC5 cfgTen 3 [some ⟨some 10, some 0, 5⟩] initialState).getD initialState

/-- Resulting state of the page step against the partially failing writer. -/
def stC6n : LoopState := resultState (pageStep envC6 cfgTen 1 0 10 initialState)

/-- Resulting state of the page step whose last hit has no sort token. -/
def stC7b : LoopState := resultState (pageStep envC7 cfgTen 1 0 10 initialState)

/-- Resulting state of the page step over the multi-field sort token. -/
def stC10n : LoopState := resultState (pageStep envC10 cfgTen 1 0 10 initialState)

/-! ## Basic lemmas about the JS set rebuild and truncation -/

theorem jsSetAux_subset (l : List String) :
    ∀ seen x, x ∈ jsSetAux seen l → x ∈ l := by
  induction l with
  | nil => intro seen x hx; simp [jsSetAux] at hx
  | cons a l ih =>
    intro seen x hx
    simp only [jsSetAux] at hx
    split at hx
    · exact List.mem_cons_of_mem _ (ih _ _ hx)
    · rcases List.mem_cons.mp hx with rfl | hx
      · exact List.mem_cons_self _ _
      · exact List.mem_cons_of_mem _ (ih _ _ hx)

theorem jsSetAux_not_mem_seen (l : List String) :
    ∀ seen x, x ∈ jsSetAux seen l → x ∉ seen := by
  induction l with
  | nil => intro seen x hx; simp [jsSetAux] at hx
  | cons a l ih =>
    intro seen x hx
    simp only [jsSetAux] at hx
    split at hx
    · exact ih _ _ hx
    · next hmem =>
      rcases List.mem_cons.mp hx with rfl | hx
      · exact hmem
      · intro hs
        exact ih _ _ hx (List.mem_cons_of_mem _ hs)

theorem jsSetAux_nodup (l : List String) : ∀ seen, (jsSetAux seen l).Nodup := by
  induction l with
  | nil => intro seen; simp [jsSetAux]
  | cons a l ih =>
    intro seen
    simp only [jsSetAux]
    split
    · exact ih _
    · refine List.nodup_cons.mpr ⟨?_, ih _⟩
      intro ha
      exact jsSetAux_not_mem_seen _ _ _ ha (List.mem_cons_self _ _)

theorem jsSetOfList_nodup (l : List String) : (jsSetOfList l).Nodup :=
  jsSetAux_nodup l []

theorem truncBatch_length (maxSignals : ℚ) (count : Nat) (fe : SignalSearchResponse) :
    (truncBatch maxSignals count fe).length =
      if maxSignals < ((count + fe.hits.hits.length : Nat) : ℚ) then
        min (⌊maxSignals⌋ - (count : Int)).toNat fe.hits.hits.length
      else fe.hits.hits.length := by
  unfold truncBatch
  split <;> simp

/-! ## Frame and bound lemmas for one page-loop iteration -/

theorem advanceSort_state (r : SignalSearchResponse) (st : LoopState) :
    ∃ b, resultState (advanceSort r st) = { st with sortId := b } := by
  unfold advanceSort
  cases h : r.hits.hits.getLast? with
  | none => exact ⟨st.sortId, rfl⟩
  | some lastHit =>
    obtain ⟨ts, srt⟩ := lastHit
    cases srt with
    | none => exact ⟨st.sortId, rfl⟩
    | some l =>
      cases l with
      | nil => exact ⟨st.sortId, rfl⟩
      | cons a tl => exact ⟨some a, rfl⟩

theorem pageLoopInv_refl (cfg : Config) (maxSignals : ℚ) (st : LoopState) :
    PageLoopInv cfg maxSignals st st := by
  refine ⟨rfl, ⟨[], by simp⟩, ⟨[], by simp⟩, fun h => h, rfl⟩

theorem pageLoopInv_trans {cfg : Config} {maxSignals : ℚ} {st st₁ st' : LoopState}
    (h1 : PageLoopInv cfg maxSignals st st₁) (h2 : PageLoopInv cfg maxSignals st₁ st') :
    PageLoopInv cfg maxSignals st st' := by
  obtain ⟨e1, ⟨s1, hs1, hs1p⟩, ⟨b1, hb1, hb1p⟩, n1, w1⟩ := h1
  obtain ⟨e2, ⟨s2, hs2, hs2p⟩, ⟨b2, hb2, hb2p⟩, n2, w2⟩ := h2
  refine ⟨by omega, ⟨s1 ++ s2, by simp [hs2, hs1], ?_⟩,
    ⟨b1 ++ b2, by simp [hb2, hb1], ?_⟩, fun h => n2 (n1 h), w2.trans w1⟩
  · intro c hc
    rcases List.mem_append.mp hc with hc | hc
    · exact hs1p c hc
    · exact hs2p c hc
  · intro c hc
    rcases List.mem_append.mp hc with hc | hc
    · exact hb1p c hc
    · exact hb2p c hc

theorem inv_recordSearchCall (cfg : Config) (maxSignals : ℚ) (fromV toV : Int)
    (st : LoopState) :
    PageLoopInv cfg maxSignals st (recordSearchCall cfg maxSignals fromV toV st) := by
  refine ⟨rfl, ⟨[⟨mkSearchReq cfg maxSignals fromV toV st, st.signalsCreatedCount, maxSignals⟩],
    rfl, ?_⟩, ⟨[], by simp [recordSearchCall], by simp⟩, id, rfl⟩
  intro c hc
  rcases List.mem_singleton.mp hc with rfl
  exact ⟨rfl, rfl⟩

theorem inv_recordDuration (cfg : Config) (maxSignals : ℚ) (dur : String) (st : LoopState) :
    PageLoopInv cfg maxSignals st (recordDuration dur st) :=
  ⟨rfl, ⟨[], by simp [recordDuration], by simp⟩, ⟨[], by simp [recordDuration], by simp⟩, id, rfl⟩

theorem inv_setLastLookBack (cfg : Config) (maxSignals : ℚ) (r : SignalSearchResponse)
    (st : LoopState) :
    PageLoopInv cfg maxSignals st (setLastLookBack r st) :=
  ⟨rfl, ⟨[], by simp [setLastLookBack], by simp⟩, ⟨[], by simp [setLastLookBack], by simp⟩, id, rfl⟩

theorem inv_recordThrow (cfg : Config) (maxSignals : ℚ) (st : LoopState) (e : String) :
    PageLoopInv cfg maxSignals st (recordThrow st e) :=
  ⟨rfl, ⟨[], by simp [recordThrow], by simp⟩, ⟨[], by simp [recordThrow], by simp⟩, fun _ => jsSetOfList_nodup _, rfl⟩

theorem inv_filterIdx (cfg : Config) (maxSignals : ℚ) (st : LoopState) :
    PageLoopInv cfg maxSignals st { st with filterIdx := st.filterIdx + 1 } :=
  ⟨rfl, ⟨[], by simp, by simp⟩, ⟨[], by simp, by simp⟩, id, rfl⟩

theorem inv_recordBulkCall (cfg : Config) (maxSignals : ℚ) (fe : SignalSearchResponse)
    (st : LoopState) (hguard : (st.signalsCreatedCount : ℚ) < maxSignals) :
    PageLoopInv cfg maxSignals st
      (recordBulkCall fe.hits.hits.length
        (truncBatch maxSignals st.signalsCreatedCount fe).length maxSignals st) := by
  refine ⟨rfl, ⟨[], by simp [recordBulkCall], by simp⟩,
    ⟨[⟨st.signalsCreatedCount, fe.hits.hits.length,
       (truncBatch maxSignals st.signalsCreatedCount fe).length, maxSignals⟩], rfl, ?_⟩, id, rfl⟩
  intro c hc
  rcases List.mem_singleton.mp hc with rfl
  exact ⟨rfl, hguard, truncBatch_length maxSignals st.signalsCreatedCount fe⟩

theorem inv_applyBulkResponse (cfg : Config) (maxSignals : ℚ) (resp : BulkResponse)
    (st : LoopState) :
    PageLoopInv cfg maxSignals st (applyBulkResponse resp st) := by
  refine ⟨?_, ⟨[], by simp [applyBulkResponse], by simp⟩, ⟨[], by simp [applyBulkResponse], by simp⟩,
    fun _ => jsSetOfList_nodup _, rfl⟩
  show st.toReturn.createdSignalsCount + resp.createdItemsCount + st.signalsCreatedCount
      = st.toReturn.createdSignalsCount + (st.signalsCreatedCount + resp.createdItemsCount)
  omega

theorem inv_advanceSort (cfg : Config) (maxSignals : ℚ) (r : SignalSearchResponse)
    (st : LoopState) :
    PageLoopInv cfg maxSignals st (resultState (advanceSort r st)) := by
  obtain ⟨b, hb⟩ := advanceSort_state r st
  rw [hb]
  exact ⟨rfl, ⟨[], by simp, by simp⟩, ⟨[], by simp, by simp⟩, id, rfl⟩

theorem bulkPhase_inv (env : Env) (cfg : Config) (maxSignals : ℚ)
    (r fe : SignalSearchResponse) (st : LoopState)
    (hguard : (st.signalsCreatedCount : ℚ) < maxSignals) :
    PageLoopInv cfg maxSignals st (resultState (bulkPhase env maxSignals r fe st)) := by
  unfold bulkPhase
  by_cases hfe : fe.hits.hits.length ≠ 0
  · rw [if_pos hfe]
    cases hb : env.singleBulkCreate st.bulkIdx
        (truncBatch maxSignals st.signalsCreatedCount fe) with
    | error e =>
        exact pageLoopInv_trans (inv_recordBulkCall cfg maxSignals fe st hguard)
          (inv_recordThrow cfg maxSignals _ e)
    | ok resp =>
        exact pageLoopInv_trans
          (pageLoopInv_trans (inv_recordBulkCall cfg maxSignals fe st hguard)
            (inv_applyBulkResponse cfg maxSignals resp _))
          (inv_advanceSort cfg maxSignals r _)
  · rw [if_neg hfe]
    exact inv_advanceSort cfg maxSignals r st

theorem filterPhase_inv (env : Env) (cfg : Config) (maxSignals : ℚ)
    (r : SignalSearchResponse) (st : LoopState)
    (hguard : (st.signalsCreatedCount : ℚ) < maxSignals) :
    PageLoopInv cfg maxSignals st (resultState (filterPhase env maxSignals r st)) := by
  unfold filterPhase
  cases hf : env.filterEventsAgainstList st.filterIdx r with
  | error e =>
      exact pageLoopInv_trans (inv_filterIdx cfg maxSignals st)
        (inv_recordThrow cfg maxSignals _ e)
  | ok fe =>
      exact pageLoopInv_trans (inv_filterIdx cfg maxSignals st)
        (bulkPhase_inv env cfg maxSignals r fe _ hguard)

theorem afterSearch_inv (env : Env) (cfg : Config) (maxSignals : ℚ)
    (r : SignalSearchResponse) (dur : String) (st : LoopState)
    (hguard : (st.signalsCreatedCount : ℚ) < maxSignals) :
    PageLoopInv cfg maxSignals st (resultState (afterSearch env maxSignals r dur st)) := by
  unfold afterSearch
  by_cases hstop : r.hits.total.value = 0 ∨ r.hits.hits.length = 0
  · rw [if_pos hstop]
    exact inv_recordDuration cfg maxSignals dur st
  · rw [if_neg hstop]
    exact pageLoopInv_trans
      (pageLoopInv_trans (inv_recordDuration cfg maxSignals dur st)
        (inv_setLastLookBack cfg maxSignals r _))
      (filterPhase_inv env cfg maxSignals r _ hguard)

theorem pageStep_inv (env : Env) (cfg : Config) (maxSignals : ℚ) (fromV toV : Int)
    (st : LoopState) (hguard : (st.signalsCreatedCount : ℚ) < maxSignals) :
    PageLoopInv cfg maxSignals st
      (resultState (pageStep env cfg maxSignals fromV toV st)) := by
  unfold pageStep
  cases hs : env.singleSearchAfter st.searchIdx (mkSearchReq cfg maxSignals fromV toV st) with
  | error e =>
      exact pageLoopInv_trans (inv_recordSearchCall cfg maxSignals fromV toV st)
        (inv_recordThrow cfg maxSignals _ e)
  | ok rd =>
      obtain ⟨r, dur⟩ := rd
      exact pageLoopInv_trans (inv_recordSearchCall cfg maxSignals fromV toV st)
        (afterSearch_inv env cfg maxSignals r dur _ hguard)

theorem advanceSort_count (r : SignalSearchResponse) (st : LoopState) :
    (resultState (advanceSort r st)).signalsCreatedCount = st.signalsCreatedCount := by
  obtain ⟨b, hb⟩ := advanceSort_state r st
  rw [hb]

theorem bulkPhase_count_le (env : Env) (maxSignals : ℚ) (r fe : SignalSearchResponse)
    (st : LoopState) (htruth : TruthfulWriter env)
    (hguard : (st.signalsCreatedCount : ℚ) < maxSignals) :
    ((resultState (bulkPhase env maxSignals r fe st)).signalsCreatedCount : ℚ) ≤ maxSignals := by
  unfold bulkPhase
  by_cases hfe : fe.hits.hits.length ≠ 0
  · rw [if_pos hfe]
    cases hb : env.singleBulkCreate st.bulkIdx
        (truncBatch maxSignals st.signalsCreatedCount fe) with
    | error e => exact le_of_lt hguard
    | ok resp =>
        rw [advanceSort_count]
        have hcre : resp.createdItemsCount
            ≤ (truncBatch maxSignals st.signalsCreatedCount fe).length := htruth _ _ _ hb
        rw [truncBatch_length] at hcre
        show ((st.signalsCreatedCount + resp.createdItemsCount : Nat) : ℚ) ≤ maxSignals
        by_cases hgt : maxSignals
            < ((st.signalsCreatedCount + fe.hits.hits.length : Nat) : ℚ)
        · rw [if_pos hgt] at hcre
          have h1 : resp.createdItemsCount
              ≤ (⌊maxSignals⌋ - (st.signalsCreatedCount : Int)).toNat :=
            le_trans hcre (Nat.min_le_left _ _)
          have hcf : (st.signalsCreatedCount : Int) ≤ ⌊maxSignals⌋ :=
            Int.le_floor.mpr (le_of_lt hguard)
          have h2 : (st.signalsCreatedCount : Int) + resp.createdItemsCount ≤ ⌊maxSignals⌋ := by
            omega
          have h3 : ((st.signalsCreatedCount + resp.createdItemsCount : Nat) : ℚ)
              ≤ ((⌊maxSignals⌋ : Int) : ℚ) := by
            exact_mod_cast h2
          exact le_trans h3 (Int.floor_le maxSignals)
        · rw [if_neg hgt] at hcre
          have h5 : ((st.signalsCreatedCount + fe.hits.hits.length : Nat) : ℚ) ≤ maxSignals :=
            not_lt.mp hgt
          have h6 : (st.signalsCreatedCount + resp.createdItemsCount : Nat)
              ≤ (st.signalsCreatedCount + fe.hits.hits.length : Nat) := by omega
          have h7 : ((st.signalsCreatedCount + resp.createdItemsCount : Nat) : ℚ)
              ≤ ((st.signalsCreatedCount + fe.hits.hits.length : Nat) : ℚ) := by
            exact_mod_cast h6
          linarith
  · rw [if_neg hfe]
    rw [advanceSort_count]
    exact le_of_lt hguard

theorem filterPhase_count_le (env : Env) (maxSignals : ℚ) (r : SignalSearchResponse)
    (st : LoopState) (htruth : TruthfulWriter env)
    (hguard : (st.signalsCreatedCount : ℚ) < maxSignals) :
    ((resultState (filterPhase env maxSignals r st)).signalsCreatedCount : ℚ) ≤ maxSignals := by
  unfold filterPhase
  cases hf : env.filterEventsAgainstList st.filterIdx r with
  | error e => exact le_of_lt hguard
  | ok fe => exact bulkPhase_count_le env maxSignals r fe _ htruth hguard

theorem afterSearch_count_le (env : Env) (maxSignals : ℚ) (r : SignalSearchResponse)
    (dur : String) (st : LoopState) (htruth : TruthfulWriter env)
    (hguard : (st.signalsCreatedCount : ℚ) < maxSignals) :
    ((resultState (afterSearch env maxSignals r dur st)).signalsCreatedCount : ℚ)
      ≤ maxSignals := by
  unfold afterSearch
  by_cases hstop : r.hits.total.value = 0 ∨ r.hits.hits.length = 0
  · rw [if_pos hstop]
    exact le_of_lt hguard
  · rw [if_neg hstop]
    exact filterPhase_count_le env maxSignals r _ htruth hguard

theorem pageStep_count_le (env : Env) (cfg : Config) (maxSignals : ℚ) (fromV toV : Int)
    (st : LoopState) (htruth : TruthfulWriter env)
    (hguard : (st.signalsCreatedCount : ℚ) < maxSignals) :
    ((resultState (pageStep env cfg maxSignals fromV toV st)).signalsCreatedCount : ℚ)
      ≤ maxSignals := by
  unfold pageStep
  cases hs : env.singleSearchAfter st.searchIdx (mkSearchReq cfg maxSignals fromV toV st) with
  | error e => exact le_of_lt hguard
  | ok rd =>
      obtain ⟨r, dur⟩ := rd
      exact afterSearch_count_le env maxSignals r dur _ htruth hguard

/-! ## Lemmas about the full page loop -/

theorem pageLoop_inv (env : Env) (cfg : Config) (maxSignals : ℚ) (fromV toV : Int) :
    ∀ (fuel : Nat) (st : LoopState) (out : PageLoopResult),
    pageLoop env cfg maxSignals fromV toV fuel st = some out →
    PageLoopInv cfg maxSignals st (pageOutState out) := by
  intro fuel
  induction fuel with
  | zero => intro st out h; simp [pageLoop] at h
  | succ fuel ih =>
    intro st out h
    simp only [pageLoop] at h
    by_cases hguard : (st.signalsCreatedCount : ℚ) < maxSignals
    · rw [if_pos hguard] at h
      have hframe := pageStep_inv env cfg maxSignals fromV toV st hguard
      cases hps : pageStep env cfg maxSignals fromV toV st with
      | next st1 =>
          rw [hps] at h hframe
          exact pageLoopInv_trans hframe (ih st1 out h)
      | breakLoop st1 =>
          rw [hps] at h hframe
          have h2 : some (PageLoopResult.window st1) = some out := h
          injection h2 with h3
          subst h3
          exact hframe
      | ret st1 =>
          rw [hps] at h hframe
          have h2 : some (PageLoopResult.abort st1) = some out := h
          injection h2 with h3
          subst h3
          exact hframe
    · rw [if_neg hguard] at h
      injection h with h3
      subst h3
      exact pageLoopInv_refl cfg maxSignals st

theorem pageLoop_count_le (env : Env) (cfg : Config) (maxSignals : ℚ) (fromV toV : Int)
    (htruth : TruthfulWriter env) :
    ∀ (fuel : Nat) (st : LoopState) (out : PageLoopResult),
    pageLoop env cfg maxSignals fromV toV fuel st = some out →
    (st.signalsCreatedCount : ℚ) ≤ maxSignals →
    ((pageOutState out).signalsCreatedCount : ℚ) ≤ maxSignals := by
  intro fuel
  induction fuel with
  | zero => intro st out h; simp [pageLoop] at h
  | succ fuel ih =>
    intro st out h hle
    simp only [pageLoop] at h
    by_cases hguard : (st.signalsCreatedCount : ℚ) < maxSignals
    · rw [if_pos hguard] at h
      have hbound := pageStep_count_le env cfg maxSignals fromV toV st htruth hguard
      cases hps : pageStep env cfg maxSignals fromV toV st with
      | next st1 =>
          rw [hps] at h hbound
          exact ih st1 out h hbound
      | breakLoop st1 =>
          rw [hps] at h hbound
          have h2 : some (PageLoopResult.window st1) = some out := h
          injection h2 with h3
          subst h3
          exact hbound
      | ret st1 =>
          rw [hps] at h hbound
          have h2 : some (PageLoopResult.abort st1) = some out := h
          injection h2 with h3
          subst h3
          exact hbound
    · rw [if_neg hguard] at h
      injection h with h3
      subst h3
      exact hle

theorem advanceSort_searchCalls (r : SignalSearchResponse) (st : LoopState) :
    (resultState (advanceSort r st)).searchCalls = st.searchCalls := by
  obtain ⟨b, hb⟩ := advanceSort_state r st
  rw [hb]

theorem bulkPhase_searchCalls (env : Env) (maxSignals : ℚ) (r fe : SignalSearchResponse)
    (st : LoopState) :
    (resultState (bulkPhase env maxSignals r fe st)).searchCalls = st.searchCalls := by
  unfold bulkPhase
  by_cases hfe : fe.hits.hits.length ≠ 0
  · rw [if_pos hfe]
    cases hb : env.singleBulkCreate st.bulkIdx
        (truncBatch maxSignals st.signalsCreatedCount fe) with
    | error e => rfl
    | ok resp =>
        rw [advanceSort_searchCalls]
        rfl
  · rw [if_neg hfe]
    rw [advanceSort_searchCalls]

theorem filterPhase_searchCalls (env : Env) (maxSignals : ℚ) (r : SignalSearchResponse)
    (st : LoopState) :
    (resultState (filterPhase env maxSignals r st)).searchCalls = st.searchCalls := by
  unfold filterPhase
  cases hf : env.filterEventsAgainstList st.filterIdx r with
  | error e => rfl
  | ok fe => exact bulkPhase_searchCalls env maxSignals r fe _

theorem afterSearch_searchCalls (env : Env) (maxSignals : ℚ) (r : SignalSearchResponse)
    (dur : String) (st : LoopState) :
    (resultState (afterSearch env maxSignals r dur st)).searchCalls = st.searchCalls := by
  unfold afterSearch
  by_cases hstop : r.hits.total.value = 0 ∨ r.hits.hits.length = 0
  · rw [if_pos hstop]
    rfl
  · rw [if_neg hstop]
    exact filterPhase_searchCalls env maxSignals r _

theorem pageStep_searchCalls (env : Env) (cfg : Config) (maxSignals : ℚ) (fromV toV : Int)
    (st : LoopState) :
    (resultState (pageStep env cfg maxSignals fromV toV st)).searchCalls
      = st.searchCalls ++
        [⟨mkSearchReq cfg maxSignals fromV toV st, st.signalsCreatedCount, maxSignals⟩] := by
  unfold pageStep
  cases hs : env.singleSearchAfter st.searchIdx (mkSearchReq cfg maxSignals fromV toV st) with
  | error e => rfl
  | ok rd =>
      obtain ⟨r, dur⟩ := rd
      exact afterSearch_searchCalls env maxSignals r dur _

theorem pageLoop_first_call (env : Env) (cfg : Config) (maxSignals : ℚ) (fromV toV : Int)
    (fuel : Nat) (st : LoopState) (out : PageLoopResult)
    (h : pageLoop env cfg maxSignals fromV toV (fuel + 1) st = some out)
    (hguard : (st.signalsCreatedCount : ℚ) < maxSignals) :
    ∃ l, (pageOutState out).searchCalls = st.searchCalls ++
      (⟨mkSearchReq cfg maxSignals fromV toV st, st.signalsCreatedCount, maxSignals⟩ :: l) := by
  simp only [pageLoop] at h
  rw [if_pos hguard] at h
  have hsc := pageStep_searchCalls env cfg maxSignals fromV toV st
  cases hps : pageStep env cfg maxSignals fromV toV st with
  | next st1 =>
      rw [hps] at h hsc
      simp only [resultState] at hsc
      obtain ⟨-, ⟨l2, hl2, -⟩, -, -, -⟩ := pageLoop_inv env cfg maxSignals fromV toV fuel st1 out h
      refine ⟨l2, ?_⟩
      rw [hl2, hsc]
      simp
  | breakLoop st1 =>
      rw [hps] at h hsc
      have h2 : some (PageLoopResult.window st1) = some out := h
      injection h2 with h3
      subst h3
      exact ⟨[], hsc⟩
  | ret st1 =>
      rw [hps] at h hsc
      have h2 : some (PageLoopResult.abort st1) = some out := h
      injection h2 with h3
      subst h3
      exact ⟨[], hsc⟩

/-! ## Lemmas about the window loop -/

theorem sumMaxSignals_cons (t? : Option TimeTuple) (rest : List (Option TimeTuple)) :
    sumMaxSignals (t? :: rest)
      = (match t? with | some t => t.maxSignals | none => 0) + sumMaxSignals rest := by
  simp [sumMaxSignals]

theorem sumMaxSignals_nonneg : ∀ (L : List (Option TimeTuple)),
    (∀ t? ∈ L, ∀ t, t? = some t → ∃ n : Nat, t.maxSignals = (n : ℚ)) →
    0 ≤ sumMaxSignals L := by
  intro L
  induction L with
  | nil => intro _; simp [sumMaxSignals]
  | cons t? rest ih =>
    intro hnat
    rw [sumMaxSignals_cons]
    have h1 : 0 ≤ sumMaxSignals rest :=
      ih (fun x hx => hnat x (List.mem_cons_of_mem _ hx))
    cases t? with
    | none =>
        show (0:ℚ) ≤ 0 + sumMaxSignals rest
        linarith
    | some t =>
        obtain ⟨n, hn⟩ := hnat (some t) (List.mem_cons_self _ _) t rfl
        have h2 : (0:ℚ) ≤ t.maxSignals := by
          rw [hn]; exact Nat.cast_nonneg n
        show (0:ℚ) ≤ t.maxSignals + sumMaxSignals rest
        linarith

theorem sumMaxSignals_reverse (L : List (Option TimeTuple)) :
    sumMaxSignals L.reverse = sumMaxSignals L := by
  unfold sumMaxSignals
  rw [List.map_reverse, List.sum_reverse]

theorem windowLoop_frame (env : Env) (cfg : Config) (fuel : Nat) :
    ∀ (L : List (Option TimeTuple)) (st stf : LoopState),
    windowLoop env cfg fuel L st = some stf →
    (st.toReturn.errors.Nodup → stf.toReturn.errors.Nodup) ∧
    (∃ l, stf.searchCalls = st.searchCalls ++ l ∧
       ∀ c ∈ l, c.req.pageSize = mkPageSize cfg c.maxSignalsAtCall) := by
  intro L
  induction L with
  | nil =>
    intro st stf h
    simp only [windowLoop] at h
    injection h with h2
    subst h2
    exact ⟨id, ⟨[], by simp, by simp⟩⟩
  | cons t? rest ih =>
    intro st stf h
    rcases t? with - | ⟨to?, fr?, ms⟩
    · simp only [windowLoop] at h
      injection h with h2
      subst h2
      exact ⟨fun _ => jsSetOfList_nodup _, ⟨[], by simp [recordThrow], by simp⟩⟩
    · rcases to? with - | toV
      · simp only [windowLoop] at h
        injection h with h2
        subst h2
        exact ⟨fun _ => jsSetOfList_nodup _, ⟨[], by simp [recordThrow], by simp⟩⟩
      · rcases fr? with - | fromV
        · simp only [windowLoop] at h
          injection h with h2
          subst h2
          exact ⟨fun _ => jsSetOfList_nodup _, ⟨[], by simp [recordThrow], by simp⟩⟩
        · simp only [windowLoop] at h
          cases hpl : pageLoop env cfg ms fromV toV fuel
              { st with signalsCreatedCount := 0 } with
          | none => rw [hpl] at h; cases h
          | some out =>
            rw [hpl] at h
            obtain ⟨-, ⟨ls, hls, hlsp⟩, -, hnodup, -⟩ :=
              pageLoop_inv env cfg ms fromV toV fuel _ out hpl
            have hlsp2 : ∀ c ∈ ls, c.req.pageSize = mkPageSize cfg c.maxSignalsAtCall := by
              intro c hc
              obtain ⟨hmax, hps⟩ := hlsp c hc
              rw [hps, hmax]
            cases out with
            | window st' =>
              obtain ⟨ihn, ⟨l2, hl2, hl2p⟩⟩ := ih _ _ h
              constructor
              · intro hn
                exact ihn (hnodup hn)
              · refine ⟨ls ++ l2, ?_, ?_⟩
                · rw [hl2]
                  show (pageOutState (PageLoopResult.window st')).searchCalls ++ l2
                      = st.searchCalls ++ (ls ++ l2)
                  rw [hls]
                  simp
                · intro c hc
                  rcases List.mem_append.mp hc with hc | hc
                  · exact hlsp2 c hc
                  · exact hl2p c hc
            | abort st' =>
              injection h with h2
              subst h2
              refine ⟨fun hn => hnodup hn, ⟨ls, ?_, hlsp2⟩⟩
              show (pageOutState (PageLoopResult.abort st')).searchCalls = st.searchCalls ++ ls
              rw [hls]

theorem windowLoop_budget (env : Env) (cfg : Config) (fuel : Nat)
    (htruth : TruthfulWriter env) :
    ∀ (L : List (Option TimeTuple)) (st stf : LoopState),
    (∀ t? ∈ L, ∀ t, t? = some t → ∃ n : Nat, t.maxSignals = (n : ℚ)) →
    windowLoop env cfg fuel L st = some stf →
    (∀ c ∈ stf.bulkCalls, c ∈ st.bulkCalls ∨ BulkCallBudgeted c) ∧
    (∀ w ∈ stf.windowResults, w ∈ st.windowResults ∨ (w.created : ℚ) ≤ w.maxSignals) ∧
    ((stf.toReturn.createdSignalsCount : ℚ)
       ≤ (st.toReturn.createdSignalsCount : ℚ) + sumMaxSignals L) := by
  intro L
  induction L with
  | nil =>
    intro st stf hnat h
    simp only [windowLoop] at h
    injection h with h2
    subst h2
    refine ⟨fun c hc => Or.inl hc, fun w hw => Or.inl hw, ?_⟩
    simp [sumMaxSignals]
  | cons t? rest ih =>
    intro st stf hnat h
    have hnatrest : ∀ t? ∈ rest, ∀ t, t? = some t → ∃ n : Nat, t.maxSignals = (n : ℚ) :=
      fun x hx => hnat x (List.mem_cons_of_mem _ hx)
    have hrest0 : 0 ≤ sumMaxSignals rest := sumMaxSignals_nonneg rest hnatrest
    rcases t? with - | ⟨to?, fr?, ms⟩
    · simp only [windowLoop] at h
      injection h with h2
      subst h2
      refine ⟨fun c hc => Or.inl hc, fun w hw => Or.inl hw, ?_⟩
      rw [sumMaxSignals_cons]
      show (st.toReturn.createdSignalsCount : ℚ)
          ≤ (st.toReturn.createdSignalsCount : ℚ) + (0 + sumMaxSignals rest)
      linarith
    · obtain ⟨n, hn⟩ := hnat _ (List.mem_cons_self _ _) _ rfl
      have hn2 : ms = (n : ℚ) := hn
      have hms0 : (0:ℚ) ≤ ms := by rw [hn2]; exact Nat.cast_nonneg n
      rcases to? with - | toV
      · simp only [windowLoop] at h
        injection h with h2
        subst h2
        refine ⟨fun c hc => Or.inl hc, fun w hw => Or.inl hw, ?_⟩
        rw [sumMaxSignals_cons]
        show (st.toReturn.createdSignalsCount : ℚ)
            ≤ (st.toReturn.createdSignalsCount : ℚ) + (ms + sumMaxSignals rest)
        linarith
      · rcases fr? with - | fromV
        · simp only [windowLoop] at h
          injection h with h2
          subst h2
          refine ⟨fun c hc => Or.inl hc, fun w hw => Or.inl hw, ?_⟩
          rw [sumMaxSignals_cons]
          show (st.toReturn.createdSignalsCount : ℚ)
              ≤ (st.toReturn.createdSignalsCount : ℚ) + (ms + sumMaxSignals rest)
          linarith
        · simp only [windowLoop] at h
          cases hpl : pageLoop env cfg ms fromV toV fuel
              { st with signalsCreatedCount := 0 } with
          | none => rw [hpl] at h; cases h
          | some out =>
            rw [hpl] at h
            obtain ⟨heq, -, ⟨lb, hlb, hlbp⟩, -, hwr⟩ :=
              pageLoop_inv env cfg ms fromV toV fuel _ out hpl
            have hcnt : ((pageOutState out).signalsCreatedCount : ℚ) ≤ ms := by
              refine pageLoop_count_le env cfg ms fromV toV htruth fuel _ out hpl ?_
              show ((0:Nat) : ℚ) ≤ ms
              rw [hn2]
              exact_mod_cast Nat.zero_le n
            have hbulk2 : (pageOutState out).bulkCalls = st.bulkCalls ++ lb := hlb
            have hlbp2 : ∀ c ∈ lb, BulkCallBudgeted c := by
              intro c hc
              obtain ⟨hm, hlt, hoff⟩ := hlbp c hc
              refine ⟨⟨n, by rw [hm, hn2]⟩, by rw [hm]; exact hlt, ?_⟩
              rw [hm]
              exact hoff
            have hwr2 : (pageOutState out).windowResults = st.windowResults := hwr
            have heq2 : (pageOutState out).toReturn.createdSignalsCount
                = st.toReturn.createdSignalsCount + (pageOutState out).signalsCreatedCount := by
              have h9 : (pageOutState out).toReturn.createdSignalsCount + 0
                  = st.toReturn.createdSignalsCount
                    + (pageOutState out).signalsCreatedCount := heq
              omega
            cases out with
            | window st' =>
              obtain ⟨ihb, ihw, ihc⟩ := ih _ _ hnatrest h
              refine ⟨?_, ?_, ?_⟩
              · intro c hc
                rcases ihb c hc with hc2 | hc2
                · have hc3 : c ∈ st.bulkCalls ++ lb := by
                    have hc4 : c ∈ (pageOutState (PageLoopResult.window st')).bulkCalls := hc2
                    rwa [hbulk2] at hc4
                  rcases List.mem_append.mp hc3 with hc4 | hc4
                  · exact Or.inl hc4
                  · exact Or.inr (hlbp2 c hc4)
                · exact Or.inr hc2
              · intro w hw
                rcases ihw w hw with hw2 | hw2
                · have hw3 : w ∈ (pageOutState (PageLoopResult.window st')).windowResults
                      ++ [⟨ms, st'.signalsCreatedCount⟩] := hw2
                  rw [hwr2] at hw3
                  rcases List.mem_append.mp hw3 with hw4 | hw4
                  · exact Or.inl hw4
                  · rcases List.mem_singleton.mp hw4 with rfl
                    exact Or.inr hcnt
                · exact Or.inr hw2
              · rw [sumMaxSignals_cons]
                show (stf.toReturn.createdSignalsCount : ℚ)
                    ≤ (st.toReturn.createdSignalsCount : ℚ) + (ms + sumMaxSignals rest)
                have ihc2 : (stf.toReturn.createdSignalsCount : ℚ)
                    ≤ ((recordWindow ms st').toReturn.createdSignalsCount : ℚ)
                      + sumMaxSignals rest := ihc
                have h11 : (recordWindow ms st').toReturn.createdSignalsCount
                    = st.toReturn.createdSignalsCount + st'.signalsCreatedCount := heq2
                have h10 : ((recordWindow ms st').toReturn.createdSignalsCount : ℚ)
                    = (st.toReturn.createdSignalsCount : ℚ)
                      + (st'.signalsCreatedCount : ℚ) := by
                  rw [h11]
                  push_cast
                  ring
                have hcnt2 : ((st'.signalsCreatedCount : Nat) : ℚ) ≤ ms := hcnt
                linarith
            | abort st' =>
              injection h with h2
              subst h2
              refine ⟨?_, ?_, ?_⟩
              · intro c hc
                have hc3 : c ∈ st.bulkCalls ++ lb := by
                  have hc4 : c ∈ (pageOutState (PageLoopResult.abort st')).bulkCalls := hc
                  rwa [hbulk2] at hc4
                rcases List.mem_append.mp hc3 with hc4 | hc4
                · exact Or.inl hc4
                · exact Or.inr (hlbp2 c hc4)
              · intro w hw
                have hw3 : w ∈ (pageOutState (PageLoopResult.abort st')).windowResults
                    ++ [⟨ms, st'.signalsCreatedCount⟩] := hw
                rw [hwr2] at hw3
                rcases List.mem_append.mp hw3 with hw4 | hw4
                · exact Or.inl hw4
                · rcases List.mem_singleton.mp hw4 with rfl
                  exact Or.inr hcnt
              · rw [sumMaxSignals_cons]
                show ((recordWindow ms st').toReturn.createdSignalsCount : ℚ)
                    ≤ (st.toReturn.createdSignalsCount : ℚ) + (ms + sumMaxSignals rest)
                have h11 : (recordWindow ms st').toReturn.createdSignalsCount
                    = st.toReturn.createdSignalsCount + st'.signalsCreatedCount := heq2
                have h10 : ((recordWindow ms st').toReturn.createdSignalsCount : ℚ)
                    = (st.toReturn.createdSignalsCount : ℚ)
                      + (st'.signalsCreatedCount : ℚ) := by
                  rw [h11]
                  push_cast
                  ring
                have hcnt2 : ((st'.signalsCreatedCount : Nat) : ℚ) ≤ ms := hcnt
                linarith

/-! ## Equation lemmas for the page-step phases -/

theorem pageStep_search_ok (env : Env) (cfg : Config) (maxSignals : ℚ) (fromV toV : Int)
    (st : LoopState) (r : SignalSearchResponse) (dur : String)
    (hs : env.singleSearchAfter st.searchIdx (mkSearchReq cfg maxSignals fromV toV st)
       = Except.ok (r, dur)) :
    pageStep env cfg maxSignals fromV toV st
      = afterSearch env maxSignals r dur (recordSearchCall cfg maxSignals fromV toV st) := by
  unfold pageStep
  rw [hs]

theorem pageStep_search_err (env : Env) (cfg : Config) (maxSignals : ℚ) (fromV toV : Int)
    (st : LoopState) (e : String)
    (hs : env.singleSearchAfter st.searchIdx (mkSearchReq cfg maxSignals fromV toV st)
       = Except.error e) :
    pageStep env cfg maxSignals fromV toV st
      = .ret (recordThrow (recordSearchCall cfg maxSignals fromV toV st) e) := by
  unfold pageStep
  rw [hs]

theorem afterSearch_stop (env : Env) (maxSignals : ℚ) (r : SignalSearchResponse)
    (dur : String) (st : LoopState)
    (hstop : r.hits.total.value = 0 ∨ r.hits.hits.length = 0) :
    afterSearch env maxSignals r dur st = .breakLoop (recordDuration dur st) := by
  unfold afterSearch
  rw [if_pos hstop]

theorem afterSearch_go (env : Env) (maxSignals : ℚ) (r : SignalSearchResponse)
    (dur : String) (st : LoopState)
    (hnostop : ¬(r.hits.total.value = 0 ∨ r.hits.hits.length = 0)) :
    afterSearch env maxSignals r dur st
      = filterPhase env maxSignals r (setLastLookBack r (recordDuration dur st)) := by
  unfold afterSearch
  rw [if_neg hnostop]

theorem filterPhase_ok (env : Env) (maxSignals : ℚ) (r : SignalSearchResponse)
    (st : LoopState) (fe : SignalSearchResponse)
    (hf : env.filterEventsAgainstList st.filterIdx r = Except.ok fe) :
    filterPhase env maxSignals r st
      = bulkPhase env maxSignals r fe { st with filterIdx := st.filterIdx + 1 } := by
  unfold filterPhase
  rw [hf]

theorem filterPhase_err (env : Env) (maxSignals : ℚ) (r : SignalSearchResponse)
    (st : LoopState) (e : String)
    (hf : env.filterEventsAgainstList st.filterIdx r = Except.error e) :
    filterPhase env maxSignals r st
      = .ret (recordThrow { st with filterIdx := st.filterIdx + 1 } e) := by
  unfold filterPhase
  rw [hf]

theorem bulkPhase_skip (env : Env) (maxSignals : ℚ) (r fe : SignalSearchResponse)
    (st : LoopState) (hfe : fe.hits.hits.length = 0) :
    bulkPhase env maxSignals r fe st = advanceSort r st := by
  unfold bulkPhase
  rw [if_neg (fun h => h hfe)]

theorem bulkPhase_ok (env : Env) (maxSignals : ℚ) (r fe : SignalSearchResponse)
    (st : LoopState) (resp : BulkResponse) (hfe : fe.hits.hits.length ≠ 0)
    (hb : env.singleBulkCreate st.bulkIdx (truncBatch maxSignals st.signalsCreatedCount fe)
       = Except.ok resp) :
    bulkPhase env maxSignals r fe st
      = advanceSort r (applyBulkResponse resp
          (recordBulkCall fe.hits.hits.length
            (truncBatch maxSignals st.signalsCreatedCount fe).length maxSignals st)) := by
  unfold bulkPhase
  rw [if_pos hfe, hb]

theorem bulkPhase_err (env : Env) (maxSignals : ℚ) (r fe : SignalSearchResponse)
    (st : LoopState) (e : String) (hfe : fe.hits.hits.length ≠ 0)
    (hb : env.singleBulkCreate st.bulkIdx (truncBatch maxSignals st.signalsCreatedCount fe)
       = Except.error e) :
    bulkPhase env maxSignals r fe st
      = .ret (recordThrow
          (recordBulkCall fe.hits.hits.length
            (truncBatch maxSignals st.signalsCreatedCount fe).length maxSignals st) e) := by
  unfold bulkPhase
  rw [if_pos hfe, hb]

theorem advanceSort_next (r : SignalSearchResponse) (st : LoopState) (ts : Option Int)
    (a : String) (tl : List String)
    (hlast : r.hits.hits.getLast? = some ⟨ts, some (a :: tl)⟩) :
    advanceSort r st = .next { st with sortId := some a } := by
  unfold advanceSort
  rw [hlast]

theorem advanceSort_break_noTok (r : SignalSearchResponse) (st : LoopState) (ts : Option Int)
    (hlast : r.hits.hits.getLast? = some ⟨ts, none⟩) :
    advanceSort r st = .breakLoop st := by
  unfold advanceSort
  rw [hlast]

theorem advanceSort_break_emptyTok (r : SignalSearchResponse) (st : LoopState)
    (ts : Option Int) (hlast : r.hits.hits.getLast? = some ⟨ts, some []⟩) :
    advanceSort r st = .breakLoop st := by
  unfold advanceSort
  rw [hlast]

theorem advanceSort_cases (r : SignalSearchResponse) (st : LoopState) :
    (∃ a, advanceSort r st = .next { st with sortId := some a }) ∨
    advanceSort r st = .breakLoop st := by
  unfold advanceSort
  cases h : r.hits.hits.getLast? with
  | none => exact Or.inr rfl
  | some lh =>
    obtain ⟨ts, srt⟩ := lh
    cases srt with
    | none => exact Or.inr rfl
    | some l =>
      cases l with
      | nil => exact Or.inr rfl
      | cons a tl => exact Or.inl ⟨a, rfl⟩

/-! ## Claim theorems -/

theorem bulkCallBudgeted_offered (c : BulkCall) (h : BulkCallBudgeted c)
    (hgt : (c.countBefore : ℚ) + c.filteredLen > c.maxSignalsAtCall) :
    (c.offered : ℚ) = c.maxSignalsAtCall - c.countBefore := by
  obtain ⟨⟨n, hn⟩, hlt, hoff⟩ := h
  have hgt2 : c.maxSignalsAtCall < ((c.countBefore + c.filteredLen : Nat) : ℚ) := by
    push_cast
    linarith
  rw [if_pos hgt2] at hoff
  rw [hn] at hlt hgt2 ⊢
  have hltn : c.countBefore < n := by exact_mod_cast hlt
  have hgtn : n < c.countBefore + c.filteredLen := by exact_mod_cast hgt2
  have hfl : ⌊((n : Nat) : ℚ)⌋ = (n : Int) := Int.floor_natCast n
  rw [hn, hfl] at hoff
  have htn : ((n : Int) - (c.countBefore : Int)).toNat = n - c.countBefore := by omega
  rw [htn] at hoff
  have hmin : min (n - c.countBefore) c.filteredLen = n - c.countBefore :=
    Nat.min_eq_left (by omega)
  rw [hoff, hmin, Nat.cast_sub (Nat.le_of_lt hltn)]

/-- Claim C1: whenever the per-window created count plus the filtered batch
length would exceed the window's `maxSignals`, the batch offered to the
bulk writer has exactly `maxSignals` minus the current per-window count
elements; given a truthful writer, every window's final created count stays
within its `maxSignals`, and the run-level `createdSignalsCount` stays
within the sum of all windows' `maxSignals`.  (`maxSignals` values are
assumed to be whole numbers, as the planner derives them from the rule's
integral `maxSignals` ceiling.) -/
theorem searchAfterAndBulkCreate_budget (env : Env) (cfg : Config) (fuel : Nat)
    (tuples : List (Option TimeTuple)) (stf : LoopState)
    (htruth : TruthfulWriter env)
    (hnat : ∀ t? ∈ tuples, ∀ t, t? = some t → ∃ n : Nat, t.maxSignals = (n : ℚ))
    (hrun : searchAfterAndBulkCreate env cfg fuel tuples = some stf) :
    (∀ c ∈ stf.bulkCalls,
       (c.countBefore : ℚ) + c.filteredLen > c.maxSignalsAtCall →
       (c.offered : ℚ) = c.maxSignalsAtCall - c.countBefore) ∧
    (∀ w ∈ stf.windowResults, (w.created : ℚ) ≤ w.maxSignals) ∧
    ((stf.toReturn.createdSignalsCount : ℚ) ≤ sumMaxSignals tuples) := by
  unfold searchAfterAndBulkCreate at hrun
  have hnatrev : ∀ t? ∈ tuples.reverse, ∀ t, t? = some t → ∃ n : Nat, t.maxSignals = (n : ℚ) :=
    fun x hx => hnat x (List.mem_reverse.mp hx)
  obtain ⟨hb, hw, hc⟩ :=
    windowLoop_budget env cfg fuel htruth tuples.reverse initialState stf hnatrev hrun
  refine ⟨?_, ?_, ?_⟩
  · intro c hc2 hgt
    rcases hb c hc2 with h0 | h0
    · simp [initialState] at h0
    · exact bulkCallBudgeted_offered c h0 hgt
  · intro w hw2
    rcases hw w hw2 with h0 | h0
    · simp [initialState] at h0
    · exact h0
  · rw [sumMaxSignals_reverse] at hc
    simpa [initialState] using hc

/-- Claim C1, instantiated: a one-window run with `maxSignals = 1` against
a truthful writer; the sole window's record and the run-level count stay
within budget. -/
theorem searchAfterAndBulkCreate_budget_app :
    ((stC1.windowResults.getD 0 ⟨0, 0⟩).created : ℚ)
      ≤ (stC1.windowResults.getD 0 ⟨0, 0⟩).maxSignals ∧
    ((stC1.toReturn.createdSignalsCount : ℚ) ≤ sumMaxSignals tuplesC1) := by
  have h := searchAfterAndBulkCreate_budget envC1 cfgTen 3 tuplesC1 stC1
    (by
      intro i batch resp hh
      injection hh with h2
      rw [← h2])
    (by
      intro t? ht t htt
      simp only [tuplesC1, List.mem_singleton] at ht
      subst ht
      injection htt with h3
      subst h3
      exact ⟨1, by norm_num⟩)
    (by decide)
  exact ⟨h.2.1 _ (by decide), h.2.2⟩

/-- Claim C2 counterexample: in the two-window run of `envC2`/`tuplesC2`,
the first window (fromTime 0) advances the cursor to "a"; the second
window's first fetch (fromTime 100) then carries `some "a"` instead of an
absent cursor — the cursor is NOT reset at the start of a window. -/
theorem sortId_carried_across_windows_cex :
    sortIdTrace (searchAfterAndBulkCreate envC2 cfgTen 3 tuplesC2)
      = [(none, 0), (some "a", 100)] ∧
    ((some "a" : Option String) ≠ none) :=
  ⟨by decide, by decide⟩

/-- Claim C2 amended: at the start of every window the per-window created
count is reset to 0 (the first fetch of the window records
`countAtCall = 0`), but the cursor is NOT reset: the window's first page
fetch uses whatever `sortId` the run had when the window was popped,
including a cursor left behind by the previous window. -/
theorem window_start_resets_count_not_cursor (env : Env) (cfg : Config) (fuel : Nat)
    (toV fromV : Int) (ms : ℚ) (rest : List (Option TimeTuple)) (st stf : LoopState)
    (hmax : 0 < ms)
    (hrun : windowLoop env cfg (fuel + 1) (some ⟨some toV, some fromV, ms⟩ :: rest) st
       = some stf) :
    ∃ l, stf.searchCalls = st.searchCalls ++
      ({ req := { searchAfterSortId := st.sortId, fromTime := fromV, toTime := toV,
                  pageSize := mkPageSize cfg ms },
         countAtCall := 0, maxSignalsAtCall := ms } :: l) := by
  simp only [windowLoop] at hrun
  cases hpl : pageLoop env cfg ms fromV toV (fuel + 1)
      { st with signalsCreatedCount := 0 } with
  | none => rw [hpl] at hrun; cases hrun
  | some out =>
    rw [hpl] at hrun
    have hguard : (({ st with signalsCreatedCount := 0 } : LoopState).signalsCreatedCount : ℚ)
        < ms := by
      show ((0 : Nat) : ℚ) < ms
      rw [Nat.cast_zero]
      exact hmax
    obtain ⟨l, hl⟩ := pageLoop_first_call env cfg ms fromV toV fuel _ out hpl hguard
    cases out with
    | window st' =>
      obtain ⟨-, ⟨l2, hl2, -⟩⟩ := windowLoop_frame env cfg (fuel + 1) rest _ stf hrun
      refine ⟨l ++ l2, ?_⟩
      rw [hl2]
      have hl3 : (recordWindow ms st').searchCalls = st.searchCalls ++
          ({ req := { searchAfterSortId := st.sortId, fromTime := fromV, toTime := toV,
                      pageSize := mkPageSize cfg ms },
             countAtCall := 0, maxSignalsAtCall := ms } :: l) := hl
      rw [hl3]
      simp
    | abort st' =>
      injection hrun with h2
      subst h2
      exact ⟨l, hl⟩

/-- Claim C2 amended, instantiated: a concrete one-window run whose first
fetch carries the incoming cursor and a reset created count. -/
theorem window_start_resets_count_not_cursor_app :
    stC2w.searchCalls.head?
      = some ⟨⟨initialState.sortId, 0, 10, mkPageSize cfgTen 1⟩, 0, 1⟩ := by
  obtain ⟨l, hl⟩ := window_start_resets_count_not_cursor envC2 cfgTen 2 10 0 1 []
    initialState stC2w (by norm_num) (by decide)
  rw [hl]
  rfl

/-- Claim C3 counterexample: against `envC3` the second fetch happens with
3 signals already created in a window capped at 5, yet its requested page
size is 5 — derived from the window's full `maxSignals` — while the spec's
`min(remaining budget, configured page size)` rounded up is 2. -/
theorem pageSize_ignores_remaining_budget_cex :
    pageSizeTrace (searchAfterAndBulkCreate envC3 cfgTen 4 tuplesC3) = [(0, 5), (3, 5)] ∧
    specPageSize 5 3 10 = 2 ∧ ¬((5 : ℚ) = specPageSize 5 3 10) := by
  have hspec : specPageSize 5 3 10 = 2 := by
    unfold specPageSize
    norm_num
  refine ⟨by decide, hspec, ?_⟩
  rw [hspec]
  norm_num

/-- Claim C3 amended: every page fetch requests
`ceil(min(window's maxSignals, configured pageSize))` — the already-created
count (remaining budget) plays no role — provided the configured page size
is a whole number (`Math.ceil` is applied only on the `maxSignals` side of
the source's conditional). -/
theorem pageSize_min_maxSignals_configured (env : Env) (cfg : Config) (fuel : Nat)
    (tuples : List (Option TimeTuple)) (stf : LoopState)
    (hint : (⌈cfg.pageSize⌉ : ℚ) = cfg.pageSize)
    (hrun : searchAfterAndBulkCreate env cfg fuel tuples = some stf) :
    ∀ c ∈ stf.searchCalls,
      c.req.pageSize = (⌈min c.maxSignalsAtCall cfg.pageSize⌉ : ℚ) := by
  unfold searchAfterAndBulkCreate at hrun
  obtain ⟨-, ⟨l, hl, hlp⟩⟩ :=
    windowLoop_frame env cfg fuel tuples.reverse initialState stf hrun
  intro c hc
  rw [hl] at hc
  have hc2 : c ∈ l := by
    simpa [initialState] using hc
  rw [hlp c hc2]
  unfold mkPageSize
  by_cases hlt : c.maxSignalsAtCall < cfg.pageSize
  · rw [if_pos hlt, min_eq_left (le_of_lt hlt)]
  · rw [if_neg hlt, min_eq_right (not_lt.mp hlt), hint]

/-- Claim C3 amended, instantiated on the second fetch of the `envC3`
run. -/
theorem pageSize_min_maxSignals_configured_app :
    (stC3.searchCalls.getD 1 ⟨⟨none, 0, 0, 0⟩, 0, 0⟩).req.pageSize
      = (⌈min (stC3.searchCalls.getD 1 ⟨⟨none, 0, 0, 0⟩, 0, 0⟩).maxSignalsAtCall
           cfgTen.pageSize⌉ : ℚ) :=
  pageSize_min_maxSignals_configured envC3 cfgTen 4 tuplesC3 stC3 (by decide) (by decide)
    _ (by decide)

/-- Claim C4: when the search page reports a normalized total of 0 OR an
empty hits array (each condition sufficient alone, so the contradictory
total-0-with-hits response also stops), the page loop ends the window at
once: no filter or bulk call happens, and only the search duration and
search trace are added. Both total-hit forms normalize to the same
integer. -/
theorem zero_hits_stops_window (env : Env) (cfg : Config) (maxSignals : ℚ)
    (fromV toV : Int) (fuel : Nat) (st : LoopState) (r : SignalSearchResponse)
    (dur : String)
    (hsearch : env.singleSearchAfter st.searchIdx (mkSearchReq cfg maxSignals fromV toV st)
       = Except.ok (r, dur))
    (hstop : r.hits.total.value = 0 ∨ r.hits.hits.length = 0)
    (hguard : (st.signalsCreatedCount : ℚ) < maxSignals) :
    (∀ n : Int, TotalHits.value (TotalHits.lit n) = n
       ∧ TotalHits.value (TotalHits.wrapped n) = n) ∧
    pageLoop env cfg maxSignals fromV toV (fuel + 1) st
      = some (.window (recordDuration dur (recordSearchCall cfg maxSignals fromV toV st))) ∧
    (recordDuration dur (recordSearchCall cfg maxSignals fromV toV st)).filterIdx
      = st.filterIdx ∧
    (recordDuration dur (recordSearchCall cfg maxSignals fromV toV st)).bulkIdx
      = st.bulkIdx ∧
    (recordDuration dur (recordSearchCall cfg maxSignals fromV toV st)).bulkCalls
      = st.bulkCalls ∧
    (recordDuration dur (recordSearchCall cfg maxSignals fromV toV st)).toReturn.errors
      = st.toReturn.errors ∧
    (recordDuration dur (recordSearchCall cfg maxSignals fromV toV st)).toReturn.success
      = st.toReturn.success ∧
    (recordDuration dur
        (recordSearchCall cfg maxSignals fromV toV st)).toReturn.createdSignalsCount
      = st.toReturn.createdSignalsCount ∧
    (recordDuration dur
        (recordSearchCall cfg maxSignals fromV toV st)).toReturn.lastLookBackDate
      = st.toReturn.lastLookBackDate := by
  have hps : pageStep env cfg maxSignals fromV toV st
      = .breakLoop (recordDuration dur (recordSearchCall cfg maxSignals fromV toV st)) := by
    rw [pageStep_search_ok env cfg maxSignals fromV toV st r dur hsearch]
    exact afterSearch_stop env maxSignals r dur _ hstop
  refine ⟨fun n => ⟨rfl, rfl⟩, ?_, rfl, rfl, rfl, rfl, rfl, rfl, rfl⟩
  simp only [pageLoop]
  rw [if_pos hguard, hps]

/-- Claim C4, instantiated at the contradictory response: total 0 with a
non-empty hits array still stops the window before filtering or writing. -/
theorem zero_hits_stops_window_app :
    (TotalHits.value (TotalHits.lit 7) = 7
       ∧ TotalHits.value (TotalHits.wrapped 7) = 7) ∧
    pageLoop envC4 cfgTen 1 0 10 (0 + 1) initialState
      = some (.window (recordDuration "d0" (recordSearchCall cfgTen 1 0 10 initialState))) ∧
    (recordDuration "d0" (recordSearchCall cfgTen 1 0 10 initialState)).filterIdx
      = initialState.filterIdx ∧
    (recordDuration "d0" (recordSearchCall cfgTen 1 0 10 initialState)).bulkIdx
      = initialState.bulkIdx ∧
    (recordDuration "d0" (recordSearchCall cfgTen 1 0 10 initialState)).bulkCalls
      = initialState.bulkCalls ∧
    (recordDuration "d0" (recordSearchCall cfgTen 1 0 10 initialState)).toReturn.errors
      = initialState.toReturn.errors ∧
    (recordDuration "d0" (recordSearchCall cfgTen 1 0 10 initialState)).toReturn.success
      = initialState.toReturn.success ∧
    (recordDuration "d0"
        (recordSearchCall cfgTen 1 0 10 initialState)).toReturn.createdSignalsCount
      = initialState.toReturn.createdSignalsCount ∧
    (recordDuration "d0"
        (recordSearchCall cfgTen 1 0 10 initialState)).toReturn.lastLookBackDate
      = initialState.toReturn.lastLookBackDate := by
  have h := zero_hits_stops_window envC4 cfgTen 1 0 10 0 initialState (pageOf 0 [hitA]) "d0"
    rfl (Or.inl rfl) (by decide)
  exact ⟨h.1 7, h.2.1, h.2.2.1, h.2.2.2.1, h.2.2.2.2.1, h.2.2.2.2.2.1,
    h.2.2.2.2.2.2.1, h.2.2.2.2.2.2.2.1, h.2.2.2.2.2.2.2.2⟩

/-- Claim C5: a thrown page fetch, filter, or bulk write aborts the run:
the page step's `.ret` outcome (the only outcome the `catch` produces)
carries `success = false`, the stringified condition set-unioned into the
deduplicated errors, and every aggregate accumulated before the failure
(created count, bulk durations, prior search durations, look-back date,
prior errors) preserved; the page loop immediately surfaces it as an
abort, and the window loop returns exactly that accumulated result without
touching the remaining windows. -/
theorem thrown_call_aborts_run :
    (∀ (env : Env) (cfg : Config) (maxSignals : ℚ) (fromV toV : Int) (st st' : LoopState),
       pageStep env cfg maxSignals fromV toV st = .ret st' →
       st'.toReturn.success = false ∧
       st'.toReturn.createdSignalsCount = st.toReturn.createdSignalsCount ∧
       st'.toReturn.bulkCreateTimes = st.toReturn.bulkCreateTimes ∧
       (∃ l, st'.toReturn.searchAfterTimes = st.toReturn.searchAfterTimes ++ l) ∧
       (∃ e, st'.toReturn.errors = jsSetOfList (st.toReturn.errors ++ [e])) ∧
       (st'.toReturn.lastLookBackDate = st.toReturn.lastLookBackDate ∨
        st'.toReturn.lastLookBackDate ≠ none)) ∧
    (∀ (env : Env) (cfg : Config) (maxSignals : ℚ) (fromV toV : Int) (fuel : Nat)
       (st st' : LoopState),
       (st.signalsCreatedCount : ℚ) < maxSignals →
       pageStep env cfg maxSignals fromV toV st = .ret st' →
       pageLoop env cfg maxSignals fromV toV (fuel + 1) st = some (.abort st')) ∧
    (∀ (env : Env) (cfg : Config) (fuel : Nat) (toV fromV : Int) (ms : ℚ)
       (rest : List (Option TimeTuple)) (st st' : LoopState),
       pageLoop env cfg ms fromV toV fuel { st with signalsCreatedCount := 0 }
         = some (.abort st') →
       ∃ stf, windowLoop env cfg fuel (some ⟨some toV, some fromV, ms⟩ :: rest) st
           = some stf ∧ stf.toReturn = st'.toReturn) := by
  refine ⟨?_, ?_, ?_⟩
  · intro env cfg maxSignals fromV toV st st' hret
    cases hs : env.singleSearchAfter st.searchIdx (mkSearchReq cfg maxSignals fromV toV st) with
    | error e =>
      rw [pageStep_search_err env cfg maxSignals fromV toV st e hs] at hret
      injection hret with h2
      subst h2
      exact ⟨rfl, rfl, rfl, ⟨[], by simp [recordThrow, recordSearchCall]⟩,
        ⟨e, rfl⟩, Or.inl rfl⟩
    | ok rd =>
      obtain ⟨r, dur⟩ := rd
      rw [pageStep_search_ok env cfg maxSignals fromV toV st r dur hs] at hret
      by_cases hstop : r.hits.total.value = 0 ∨ r.hits.hits.length = 0
      · rw [afterSearch_stop env maxSignals r dur _ hstop] at hret
        cases hret
      · rw [afterSearch_go env maxSignals r dur _ hstop] at hret
        have hlen : 0 < r.hits.hits.length :=
          Nat.pos_of_ne_zero (fun h0 => hstop (Or.inr h0))
        set Y := setLastLookBack r
          (recordDuration dur (recordSearchCall cfg maxSignals fromV toV st)) with hYdef
        cases hf : env.filterEventsAgainstList st.filterIdx r with
        | error e =>
          have hf2 : env.filterEventsAgainstList Y.filterIdx r = Except.error e := hf
          rw [filterPhase_err env maxSignals r Y e hf2] at hret
          injection hret with h2
          subst h2
          refine ⟨rfl, rfl, rfl, ⟨[dur], rfl⟩, ⟨e, rfl⟩, Or.inr ?_⟩
          show (if 0 < r.hits.hits.length
              then some ((r.hits.hits.getLast?).bind Hit.timestamp) else none) ≠ none
          rw [if_pos hlen]
          simp
        | ok fe =>
          have hf2 : env.filterEventsAgainstList Y.filterIdx r = Except.ok fe := hf
          rw [filterPhase_ok env maxSignals r Y fe hf2] at hret
          by_cases hfe : fe.hits.hits.length ≠ 0
          · cases hb : env.singleBulkCreate st.bulkIdx
                (truncBatch maxSignals st.signalsCreatedCount fe) with
            | error e =>
              have hb2 : env.singleBulkCreate
                  ({ Y with filterIdx := Y.filterIdx + 1 } : LoopState).bulkIdx
                  (truncBatch maxSignals
                    ({ Y with filterIdx := Y.filterIdx + 1 } : LoopState).signalsCreatedCount fe)
                  = Except.error e := hb
              rw [bulkPhase_err env maxSignals r fe _ e hfe hb2] at hret
              injection hret with h2
              subst h2
              refine ⟨rfl, rfl, rfl, ⟨[dur], rfl⟩, ⟨e, rfl⟩, Or.inr ?_⟩
              show (if 0 < r.hits.hits.length
                  then some ((r.hits.hits.getLast?).bind Hit.timestamp) else none) ≠ none
              rw [if_pos hlen]
              simp
            | ok resp =>
              have hb2 : env.singleBulkCreate
                  ({ Y with filterIdx := Y.filterIdx + 1 } : LoopState).bulkIdx
                  (truncBatch maxSignals
                    ({ Y with filterIdx := Y.filterIdx + 1 } : LoopState).signalsCreatedCount fe)
                  = Except.ok resp := hb
              rw [bulkPhase_ok env maxSignals r fe _ resp hfe hb2] at hret
              rcases advanceSort_cases r _ with ⟨a, ha⟩ | ha <;> rw [ha] at hret <;> cases hret
          · have hfe0 : fe.hits.hits.length = 0 := not_ne_iff.mp hfe
            rw [bulkPhase_skip env maxSignals r fe _ hfe0] at hret
            rcases advanceSort_cases r _ with ⟨a, ha⟩ | ha <;> rw [ha] at hret <;> cases hret
  · intro env cfg maxSignals fromV toV fuel st st' hguard hret
    simp only [pageLoop]
    rw [if_pos hguard, hret]
  · intro env cfg fuel toV fromV ms rest st st' hpl
    simp only [windowLoop]
    rw [hpl]
    exact ⟨recordWindow ms st', rfl, rfl⟩

/-- Claim C5, instantiated: a raising search aborts immediately with the
accumulated aggregates preserved, and on the spec's scenario (search raises
on the second page of the first window) the run returns exactly the partial
result the abort carried. -/
theorem thrown_call_aborts_run_app :
    stC5r.toReturn.success = false ∧
    stC5r.toReturn.createdSignalsCount = initialState.toReturn.createdSignalsCount ∧
    stC5r.toReturn.bulkCreateTimes = initialState.toReturn.bulkCreateTimes ∧
    (stC5r.toReturn.lastLookBackDate = initialState.toReturn.lastLookBackDate ∨
     stC5r.toReturn.lastLookBackDate ≠ none) ∧
    pageLoop envErr cfgTen 1 0 10 (0 + 1) initialState = some (.abort stC5r) ∧
    windowLoop envC5 cfgTen 3 (some ⟨some 10, some 0, 5⟩ :: []) initialState
      = some stC5w ∧
    stC5w.toReturn = stC5ab.toReturn := by
  have h1 := thrown_call_aborts_run.1 envErr cfgTen 1 0 10 initialState stC5r (by decide)
  have h2 := thrown_call_aborts_run.2.1 envErr cfgTen 1 0 10 0 initialState stC5r
    (by decide) (by decide)
  obtain ⟨stf, hw, ht⟩ := thrown_call_aborts_run.2.2 envC5 cfgTen 3 10 0 5 [] initialState
    stC5ab (by decide)
  have hww : windowLoop envC5 cfgTen 3 (some ⟨some 10, some 0, 5⟩ :: []) initialState
      = some stC5w := by decide
  rw [hw] at hww
  injection hww with he
  subst he
  exact ⟨h1.1, h1.2.1, h1.2.2.1, h1.2.2.2.2.2, h2, hw, ht⟩

/-- Claim C6: a bulk write returning `success = false` with errors but not
raising is non-fatal: its errors are set-unioned into the aggregate, the
overall success flag becomes the AND of its previous value and the
writer's flag, the reported created count is added to both the run-level
and the per-window counter, and (the last hit carrying a sort token) the
page loop continues instead of aborting. -/
theorem partial_write_failure_continues (env : Env) (cfg : Config) (maxSignals : ℚ)
    (fromV toV : Int) (st : LoopState) (r fe : SignalSearchResponse) (dur : String)
    (resp : BulkResponse) (ts : Option Int) (a : String) (tl : List String)
    (hsearch : env.singleSearchAfter st.searchIdx (mkSearchReq cfg maxSignals fromV toV st)
       = Except.ok (r, dur))
    (hnostop : ¬(r.hits.total.value = 0 ∨ r.hits.hits.length = 0))
    (hfilter : env.filterEventsAgainstList st.filterIdx r = Except.ok fe)
    (hfe : fe.hits.hits.length ≠ 0)
    (hbulk : env.singleBulkCreate st.bulkIdx
       (truncBatch maxSignals st.signalsCreatedCount fe) = Except.ok resp)
    (hlast : r.hits.hits.getLast? = some ⟨ts, some (a :: tl)⟩) :
    ∃ st', pageStep env cfg maxSignals fromV toV st = .next st' ∧
      st'.toReturn.success = (st.toReturn.success && resp.success) ∧
      st'.toReturn.errors = jsSetOfList (st.toReturn.errors ++ resp.errors) ∧
      st'.toReturn.createdSignalsCount
        = st.toReturn.createdSignalsCount + resp.createdItemsCount ∧
      st'.signalsCreatedCount = st.signalsCreatedCount + resp.createdItemsCount := by
  have hchain : pageStep env cfg maxSignals fromV toV st
      = advanceSort r (applyBulkResponse resp (recordBulkCall fe.hits.hits.length
          (truncBatch maxSignals
            ({ setLastLookBack r (recordDuration dur
                 (recordSearchCall cfg maxSignals fromV toV st)) with
               filterIdx := (setLastLookBack r (recordDuration dur
                 (recordSearchCall cfg maxSignals fromV toV st))).filterIdx + 1 }
              : LoopState).signalsCreatedCount fe).length maxSignals
          { setLastLookBack r (recordDuration dur
              (recordSearchCall cfg maxSignals fromV toV st)) with
            filterIdx := (setLastLookBack r (recordDuration dur
              (recordSearchCall cfg maxSignals fromV toV st))).filterIdx + 1 })) := by
    rw [pageStep_search_ok env cfg maxSignals fromV toV st r dur hsearch,
        afterSearch_go env maxSignals r dur (recordSearchCall cfg maxSignals fromV toV st)
          hnostop,
        filterPhase_ok env maxSignals r
          (setLastLookBack r (recordDuration dur
            (recordSearchCall cfg maxSignals fromV toV st))) fe hfilter,
        bulkPhase_ok env maxSignals r fe
          { setLastLookBack r (recordDuration dur
              (recordSearchCall cfg maxSignals fromV toV st)) with
            filterIdx := (setLastLookBack r (recordDuration dur
              (recordSearchCall cfg maxSignals fromV toV st))).filterIdx + 1 }
          resp hfe hbulk]
  have hnext := hchain.trans (advanceSort_next r _ ts a tl hlast)
  exact ⟨_, hnext, rfl, rfl, rfl, rfl⟩

/-- Claim C6, instantiated: a partial write failure with one error entry is
folded in and the loop keeps going. -/
theorem partial_write_failure_continues_app :
    pageStep envC6 cfgTen 1 0 10 initialState = StepResult.next stC6n ∧
    stC6n.toReturn.success = (initialState.toReturn.success && false) ∧
    stC6n.toReturn.errors = jsSetOfList (initialState.toReturn.errors ++ ["dup failure"]) ∧
    stC6n.toReturn.createdSignalsCount = initialState.toReturn.createdSignalsCount + 1 ∧
    stC6n.signalsCreatedCount = initialState.signalsCreatedCount + 1 := by
  obtain ⟨st', hnext, p1, p2, p3, p4⟩ :=
    partial_write_failure_continues envC6 cfgTen 1 0 10 initialState
      (pageOf 1 [hitA]) (pageOf 1 [hitA]) "d0"
      { bulkCreateDuration := some "b0", createdItemsCount := 1, success := false,
        errors := ["dup failure"] }
      (some 100) "a" []
      rfl (by decide) rfl (by decide) rfl rfl
  have h0 : pageStep envC6 cfgTen 1 0 10 initialState = StepResult.next stC6n := by decide
  rw [hnext] at h0
  injection h0 with he
  subst he
  exact ⟨hnext, p1, p2, p3, p4⟩

/-- Claim C7: after a processed non-empty page the cursor advances to the
(first element of the) sort token of the last hit of the UNFILTERED page
even when the filtered batch is empty and the write is skipped; when that
last hit has no sort token (absent or empty), the page loop stops the
window without recording an error and with the success flag untouched. -/
theorem cursor_advance_and_missing_token (env : Env) (cfg : Config) (maxSignals : ℚ)
    (fromV toV : Int) (st : LoopState) (r fe : SignalSearchResponse) (dur : String)
    (hsearch : env.singleSearchAfter st.searchIdx (mkSearchReq cfg maxSignals fromV toV st)
       = Except.ok (r, dur))
    (hnostop : ¬(r.hits.total.value = 0 ∨ r.hits.hits.length = 0))
    (hfilter : env.filterEventsAgainstList st.filterIdx r = Except.ok fe)
    (hfe0 : fe.hits.hits.length = 0) :
    (∀ (ts : Option Int) (a : String) (tl : List String),
       r.hits.hits.getLast? = some ⟨ts, some (a :: tl)⟩ →
       ∃ st', pageStep env cfg maxSignals fromV toV st = .next st' ∧
         st'.sortId = some a ∧
         st'.bulkIdx = st.bulkIdx ∧
         st'.bulkCalls = st.bulkCalls ∧
         st'.toReturn.createdSignalsCount = st.toReturn.createdSignalsCount) ∧
    (∀ ts : Option Int,
       (r.hits.hits.getLast? = some ⟨ts, none⟩ ∨
        r.hits.hits.getLast? = some ⟨ts, some []⟩) →
       ∃ st', pageStep env cfg maxSignals fromV toV st = .breakLoop st' ∧
         st'.toReturn.success = st.toReturn.success ∧
         st'.toReturn.errors = st.toReturn.errors ∧
         (∀ fuel : Nat, (st.signalsCreatedCount : ℚ) < maxSignals →
            pageLoop env cfg maxSignals fromV toV (fuel + 1) st
              = some (.window st'))) := by
  have hchain : pageStep env cfg maxSignals fromV toV st
      = advanceSort r
          { setLastLookBack r (recordDuration dur
              (recordSearchCall cfg maxSignals fromV toV st)) with
            filterIdx := (setLastLookBack r (recordDuration dur
              (recordSearchCall cfg maxSignals fromV toV st))).filterIdx + 1 } := by
    rw [pageStep_search_ok env cfg maxSignals fromV toV st r dur hsearch,
        afterSearch_go env maxSignals r dur (recordSearchCall cfg maxSignals fromV toV st)
          hnostop,
        filterPhase_ok env maxSignals r
          (setLastLookBack r (recordDuration dur
            (recordSearchCall cfg maxSignals fromV toV st))) fe hfilter,
        bulkPhase_skip env maxSignals r fe
          { setLastLookBack r (recordDuration dur
              (recordSearchCall cfg maxSignals fromV toV st)) with
            filterIdx := (setLastLookBack r (recordDuration dur
              (recordSearchCall cfg maxSignals fromV toV st))).filterIdx + 1 }
          hfe0]
  constructor
  · intro ts a tl hlast
    have hnext := hchain.trans (advanceSort_next r _ ts a tl hlast)
    exact ⟨_, hnext, rfl, rfl, rfl, rfl⟩
  · intro ts hcase
    have hbreak : pageStep env cfg maxSignals fromV toV st
        = .breakLoop
            { setLastLookBack r (recordDuration dur
                (recordSearchCall cfg maxSignals fromV toV st)) with
              filterIdx := (setLastLookBack r (recordDuration dur
                (recordSearchCall cfg maxSignals fromV toV st))).filterIdx + 1 } := by
      rcases hcase with h | h
      · exact hchain.trans (advanceSort_break_noTok r _ ts h)
      · exact hchain.trans (advanceSort_break_emptyTok r _ ts h)
    refine ⟨_, hbreak, rfl, rfl, ?_⟩
    intro fuel hguard
    simp only [pageLoop]
    rw [if_pos hguard, hbreak]

/-- Claim C7, instantiated: the page's only hit has no sort token and the
filtered batch is empty; the window stops with success and errors
untouched. -/
theorem cursor_advance_and_missing_token_app :
    pageStep envC7 cfgTen 1 0 10 initialState = StepResult.breakLoop stC7b ∧
    stC7b.toReturn.success = initialState.toReturn.success ∧
    stC7b.toReturn.errors = initialState.toReturn.errors ∧
    pageLoop envC7 cfgTen 1 0 10 (0 + 1) initialState = some (.window stC7b) := by
  obtain ⟨st', hbrk, p1, p2, hpl⟩ :=
    (cursor_advance_and_missing_token envC7 cfgTen 1 0 10 initialState
      (pageOf 1 [hitNoSort]) (pageOf 1 []) "d0"
      rfl (by decide) rfl rfl).2 (some 7) (Or.inl rfl)
  have h0 : pageStep envC7 cfgTen 1 0 10 initialState = StepResult.breakLoop stC7b := by
    decide
  rw [hbrk] at h0
  injection h0 with he
  subst he
  exact ⟨hbrk, p1, p2, hpl 0 (by decide)⟩

/-- Claim C8: a structurally invalid window (missing tuple or missing
from/to bound) fails the whole run at once: the run returns with
`success = false`, the malformed-window error set-unioned into the error
set, and every other aggregate of the state exactly preserved — the
remaining windows and the services are never consulted. -/
theorem malformed_tuple_fails_run (env : Env) (cfg : Config) (fuel : Nat)
    (rest : List (Option TimeTuple)) (st : LoopState) (t? : Option TimeTuple)
    (hbad : t? = none ∨ ∃ t, t? = some t ∧ (t.toTime = none ∨ t.fromTime = none)) :
    windowLoop env cfg fuel (t? :: rest) st
      = some { st with toReturn := { st.toReturn with
          success := false
          errors := jsSetOfList (st.toReturn.errors ++ ["malformed date tuple"]) } } := by
  rcases hbad with rfl | ⟨t, rfl, hbad2⟩
  · simp only [windowLoop]
    rfl
  · obtain ⟨to?, fr?, ms⟩ := t
    rcases hbad2 with h | h
    · have h2 : to? = none := h
      subst h2
      simp only [windowLoop]
      rfl
    · have h2 : fr? = none := h
      subst h2
      cases to? with
      | none =>
        simp only [windowLoop]
        rfl
      | some toV =>
        simp only [windowLoop]
        rfl

/-- Claim C8, instantiated: a tuple with a missing `to` bound fails the run
immediately with the malformed-window error. -/
theorem malformed_tuple_fails_run_app :
    windowLoop envC1 cfgTen 1 [some ⟨none, some 0, 3⟩] initialState
      = some { initialState with toReturn := { initialState.toReturn with
          success := false
          errors := jsSetOfList (initialState.toReturn.errors
            ++ ["malformed date tuple"]) } } :=
  malformed_tuple_fails_run envC1 cfgTen 1 [] initialState (some ⟨none, some 0, 3⟩)
    (Or.inr ⟨⟨none, some 0, 3⟩, rfl, Or.inl rfl⟩)

/-- Claim C9: every returned error list is duplicate-free, whichever paths
(malformed window, thrown call, partial write failure) added entries and
however often an identical string recurred — every update rebuilds the list
through the JS `Set` semantics. -/
theorem run_errors_nodup (env : Env) (cfg : Config) (fuel : Nat)
    (tuples : List (Option TimeTuple)) (stf : LoopState)
    (hrun : searchAfterAndBulkCreate env cfg fuel tuples = some stf) :
    stf.toReturn.errors.Nodup := by
  unfold searchAfterAndBulkCreate at hrun
  obtain ⟨hnodup, -⟩ :=
    windowLoop_frame env cfg fuel tuples.reverse initialState stf hrun
  exact hnodup (by simp [initialState])

/-- Claim C9, instantiated: a run in which the writer reports the identical
error on two consecutive pages still returns it once. -/
theorem run_errors_nodup_app :
    stC9.toReturn.errors = ["dup failure"] ∧ stC9.toReturn.errors.Nodup :=
  ⟨by decide, run_errors_nodup envC9 cfgTen 5 tuplesC9 stC9 (by decide)⟩

/-- Claim C10: when the cursor advances from a page whose last hit carries
a non-empty sort token array, only the FIRST element of that array becomes
the new cursor; the remaining elements (`tl`) do not appear in the
resulting state. -/
theorem cursor_first_sort_element (env : Env) (cfg : Config) (maxSignals : ℚ)
    (fromV toV : Int) (st : LoopState) (r fe : SignalSearchResponse) (dur : String)
    (resp : BulkResponse) (ts : Option Int) (a : String) (tl : List String)
    (hsearch : env.singleSearchAfter st.searchIdx (mkSearchReq cfg maxSignals fromV toV st)
       = Except.ok (r, dur))
    (hnostop : ¬(r.hits.total.value = 0 ∨ r.hits.hits.length = 0))
    (hfilter : env.filterEventsAgainstList st.filterIdx r = Except.ok fe)
    (hfe : fe.hits.hits.length ≠ 0)
    (hbulk : env.singleBulkCreate st.bulkIdx
       (truncBatch maxSignals st.signalsCreatedCount fe) = Except.ok resp)
    (hlast : r.hits.hits.getLast? = some ⟨ts, some (a :: tl)⟩) :
    ∃ st', pageStep env cfg maxSignals fromV toV st = .next st' ∧
      st'.sortId = some a := by
  have hchain : pageStep env cfg maxSignals fromV toV st
      = advanceSort r (applyBulkResponse resp (recordBulkCall fe.hits.hits.length
          (truncBatch maxSignals
            ({ setLastLookBack r (recordDuration dur
                 (recordSearchCall cfg maxSignals fromV toV st)) with
               filterIdx := (setLastLookBack r (recordDuration dur
                 (recordSearchCall cfg maxSignals fromV toV st))).filterIdx + 1 }
              : LoopState).signalsCreatedCount fe).length maxSignals
          { setLastLookBack r (recordDuration dur
              (recordSearchCall cfg maxSignals fromV toV st)) with
            filterIdx := (setLastLookBack r (recordDuration dur
              (recordSearchCall cfg maxSignals fromV toV st))).filterIdx + 1 })) := by
    rw [pageStep_search_ok env cfg maxSignals fromV toV st r dur hsearch,
        afterSearch_go env maxSignals r dur (recordSearchCall cfg maxSignals fromV toV st)
          hnostop,
        filterPhase_ok env maxSignals r
          (setLastLookBack r (recordDuration dur
            (recordSearchCall cfg maxSignals fromV toV st))) fe hfilter,
        bulkPhase_ok env maxSignals r fe
          { setLastLookBack r (recordDuration dur
              (recordSearchCall cfg maxSignals fromV toV st)) with
            filterIdx := (setLastLookBack r (recordDuration dur
              (recordSearchCall cfg maxSignals fromV toV st))).filterIdx + 1 }
          resp hfe hbulk]
  have hnext := hchain.trans (advanceSort_next r _ ts a tl hlast)
  exact ⟨_, hnext, rfl⟩

/-- Claim C10, instantiated: the last hit's sort token is
`["x", "y", "z"]` and the new cursor is exactly `some "x"`. -/
theorem cursor_first_sort_element_app :
    pageStep envC10 cfgTen 1 0 10 initialState = StepResult.next stC10n ∧
    stC10n.sortId = some "x" := by
  obtain ⟨st', hnext, hs⟩ :=
    cursor_first_sort_element envC10 cfgTen 1 0 10 initialState
      (pageOf 1 [hitMulti]) (pageOf 1 [hitMulti]) "d0"
      { bulkCreateDuration := some "5ms", createdItemsCount := 1, success := true,
        errors := [] }
      (some 5) "x" ["y", "z"]
      rfl (by decide) rfl (by decide) rfl rfl
  have h0 : pageStep envC10 cfgTen 1 0 10 initialState = StepResult.next stC10n := by decide
  rw [hnext] at h0
  injection h0 with he
  subst he
  exact ⟨hnext, hs⟩
